import Mathlib

/-!
Verification development for the clappia-mcp adapter: a shallow embedding of
its validation, payload-construction and response-classification core
(src/clappia-mcp.py and src/tools/*.py), together with theorems settling the
frozen specification claims about that core.

Conventions of the embedding:
- Python strings are Lean `String`; `str.strip()` is `pyStrip`.
- Python `Optional[T]` is `Option T`; an unset optional argument is `none`.
- Python ints are Lean `Int`.
- JSON values are the inductive `JValue` below; a Python dict used as a JSON
  object is a `List (String × JValue)` of its insertion-ordered entries (all
  dicts built by this code use pairwise-distinct keys, so association-list
  lookup coincides with dict lookup).
- `json.dumps(x, indent=2)` is abstracted by the compact serializer `dumps`:
  the claims under study depend on which value is serialized, never on the
  exact whitespace of the rendering.
- A Python function that can raise is embedded as `Except PyExc _`.
-/

/-- A JSON value, as produced by `response.json()` / consumed by `json.dumps`. -/
inductive JValue where
  | jnull : JValue
  | jbool : Bool → JValue
  | jnum : Int → JValue
  | jstr : String → JValue
  | jarr : List JValue → JValue
  | jobj : List (String × JValue) → JValue
deriving Repr

/-- Exceptions of the embedded Python fragments that the claims exercise. -/
inductive PyExc where
  | attributeError : PyExc
  | typeError : PyExc
deriving Repr, DecidableEq

mutual

/-- Compact model of Python `json.dumps` (the real call pretty-prints with
indent=2; the claims depend only on which value is rendered). -/
def dumps : JValue → String
  | JValue.jnull => "null"
  | JValue.jbool true => "true"
  | JValue.jbool false => "false"
  | JValue.jnum n => toString n
  | JValue.jstr s => "\"" ++ s ++ "\""
  | JValue.jarr xs => "[" ++ dumpsList xs ++ "]"
  | JValue.jobj fs => "\x7b" ++ dumpsFields fs ++ "\x7d"

def dumpsList : List JValue → String
  | [] => ""
  | [x] => dumps x
  | x :: xs => dumps x ++ ", " ++ dumpsList xs

def dumpsFields : List (String × JValue) → String
  | [] => ""
  | [(k, v)] => "\"" ++ k ++ "\": " ++ dumps v
  | (k, v) :: fs => "\"" ++ k ++ "\": " ++ dumps v ++ ", " ++ dumpsFields fs

end

mutual

/-- Model of Python `repr` for parsed-JSON values (containers render their
string elements single-quoted). -/
def pyRepr : JValue → String
  | JValue.jnull => "None"
  | JValue.jbool true => "True"
  | JValue.jbool false => "False"
  | JValue.jnum n => toString n
  | JValue.jstr s => "'" ++ s ++ "'"
  | JValue.jarr xs => "[" ++ pyReprList xs ++ "]"
  | JValue.jobj fs => "\x7b" ++ pyReprFields fs ++ "\x7d"

def pyReprList : List JValue → String
  | [] => ""
  | [x] => pyRepr x
  | x :: xs => pyRepr x ++ ", " ++ pyReprList xs

def pyReprFields : List (String × JValue) → String
  | [] => ""
  | [(k, v)] => "'" ++ k ++ "': " ++ pyRepr v
  | (k, v) :: fs => "'" ++ k ++ "': " ++ pyRepr v ++ ", " ++ pyReprFields fs

end

/-- Model of Python `str(x)` as used inside f-strings: atoms print bare,
containers print as their repr. -/
def pyStr : JValue → String
  | JValue.jnull => "None"
  | JValue.jbool true => "True"
  | JValue.jbool false => "False"
  | JValue.jnum n => toString n
  | JValue.jstr s => s
  | JValue.jarr xs => pyRepr (JValue.jarr xs)
  | JValue.jobj fs => pyRepr (JValue.jobj fs)

/-- Python `str(x)` of an `Optional` value (`None` prints as "None"). -/
def pyStrOpt : Option JValue → String
  | none => "None"
  | some j => pyStr j

/-- Whitespace-stripping on a character list: drop leading and trailing
whitespace characters. -/
def stripChars (cs : List Char) : List Char :=
  ((cs.dropWhile Char.isWhitespace).reverse.dropWhile Char.isWhitespace).reverse

/-- Model of Python `str.strip()` (ASCII whitespace; none of the claims
exercises the exotic Unicode space characters where Python and this model
could differ). -/
def pyStrip (s : String) : String := String.mk (stripChars s.toList)

/-- Dict lookup `d.get(k)` on an insertion-ordered association list. -/
def dictGet (fs : List (String × JValue)) (k : String) : Option JValue :=
  (fs.find? (fun p => p.1 == k)).map Prod.snd

/-- Python `len(x)` on a parsed-JSON value: defined for strings, arrays and
objects, a TypeError (`none`) otherwise. -/
def pyLen : JValue → Option Nat
  | JValue.jstr s => some s.length
  | JValue.jarr xs => some xs.length
  | JValue.jobj fs => some fs.length
  | _ => none

/-- Whether a payload dict (as an association list) carries the key `k`. -/
def hasKey (l : List (String × JValue)) (k : String) : Bool :=
  l.any (fun p => p.1 == k)

/-- Value stored under key `k` in a payload dict (keys are pairwise distinct
in every payload this code builds). -/
def lookupKey (l : List (String × JValue)) (k : String) : Option JValue :=
  (l.find? (fun p => p.1 == k)).map Prod.snd

/-- Dict entry written only when an optional value is present: models
`if x is not None: payload[k] = f(x)`. -/
def optJ (k : String) (v : Option JValue) : List (String × JValue) :=
  match v with
  | some j => [(k, j)]
  | none => []

/-- Dict entry written only when an optional string is truthy (models
`if request.x: payload[k] = request.x.strip()`). -/
def optTruthyStr (k : String) (v : Option String) : List (String × JValue) :=
  match v with
  | some s => if s == "" then [] else [(k, JValue.jstr (pyStrip s))]
  | none => []

/-- Dict entry written only when an optional list is truthy (models
`if request.x: payload[k] = request.x`). -/
def optTruthyList (k : String) (v : Option (List String)) : List (String × JValue) :=
  match v with
  | some l => if l.isEmpty then [] else [(k, JValue.jarr (l.map JValue.jstr))]
  | none => []

/-- Dict entry written only when an optional int is truthy, i.e. present and
nonzero (models `if request.x: payload[k] = request.x`). -/
def optTruthyInt (k : String) (v : Option Int) : List (String × JValue) :=
  match v with
  | some n => if n == 0 then [] else [(k, JValue.jnum n)]
  | none => []

/-- Character class `[A-Z0-9]` of the identifier regex. -/
def upperAlnumChar (c : Char) : Bool :=
  (decide ('A' ≤ c) && decide (c ≤ 'Z')) || (decide ('0' ≤ c) && decide (c ≤ '9'))

/-- Model of `re.match(r'^[A-Z0-9]+$', s)` viewed as a Bool. The validators
apply it to already-stripped strings, which cannot end in a newline, so the
only way the anchored pattern matches is a full match: `s` nonempty with
every character in `[A-Z0-9]`. -/
def upperAlnumFullMatch (s : String) : Bool :=
  !s.isEmpty && s.toList.all upperAlnumChar

/-- Character class `[a-zA-Z0-9._%+-]` of the local part of the email regex
used throughout the source. -/
def emailLocalChar (c : Char) : Bool :=
  c.isAlpha || c.isDigit || c == '.' || c == '_' || c == '%' || c == '+' || c == '-'

/-- Character class `[a-zA-Z0-9.-]` of the domain part of the email regex
used throughout the source (note: no underscore). -/
def emailDomainChar (c : Char) : Bool :=
  c.isAlpha || c.isDigit || c == '.' || c == '-'

/-- Split a character list at the first occurrence of `c`. -/
def splitAtFirst (c : Char) : List Char → Option (List Char × List Char)
  | [] => none
  | x :: xs =>
    if x == c then some ([], xs)
    else match splitAtFirst c xs with
      | none => none
      | some (a, b) => some (x :: a, b)

/-- Split a character list at the last occurrence of `c`. -/
def splitAtLast (c : Char) (l : List Char) : Option (List Char × List Char) :=
  match splitAtFirst c l.reverse with
  | none => none
  | some (a, b) => some (b.reverse, a.reverse)

/-- Core of `re.match(r'^[a-zA-Z0-9._%+-]+@[a-zA-Z0-9.-]+\.[a-zA-Z]\x7b2,\x7d$', s)`
matching the whole character list: the local and domain classes both exclude
`@`, so the split is at the unique first `@`; the top-level-domain piece
admits no dot, so the separating `\.` is the last dot after the `@`. -/
def emailCoreChars (cs : List Char) : Bool :=
  match splitAtFirst '@' cs with
  | none => false
  | some (loc, rest) =>
    !loc.isEmpty && loc.all emailLocalChar &&
      match splitAtLast '.' rest with
      | none => false
      | some (dom, tld) =>
        !dom.isEmpty && dom.all emailDomainChar &&
          decide (2 ≤ tld.length) && tld.all Char.isAlpha

/-- The email pattern matched against a whole string. -/
def emailCore (s : String) : Bool := emailCoreChars s.toList

/-- Model of `re.match(email_pattern, s)` including the `$` subtlety: with
re.MULTILINE off, `$` matches at the end of the string or just before a
newline that is its final character. -/
def emailDollarMatch (s : String) : Bool :=
  emailCoreChars s.toList ||
    (match s.toList.getLast? with
     | some c => c == '\n' && emailCoreChars s.toList.dropLast
     | none => false)

/-- Modelled from the spec: the claim C8 email pattern
`^[\w.%+-]+@[\w.-]+\.[A-Za-z]\x7b2,\x7d$`, whose domain class `[\w.-]`
admits an underscore (unlike the source's `[a-zA-Z0-9.-]`). Stated here only
to compare the spec's wording with the code's validators. -/
def specEmailDomainChar (c : Char) : Bool :=
  c.isAlpha || c.isDigit || c == '_' || c == '.' || c == '-'

/-- Modelled from the spec: full match of the claim C8 pattern (the local
class `[\w.%+-]` coincides with the source's local class). -/
def specEmailMatch (s : String) : Bool :=
  match splitAtFirst '@' s.toList with
  | none => false
  | some (loc, rest) =>
    !loc.isEmpty && loc.all emailLocalChar &&
      match splitAtLast '.' rest with
      | none => false
      | some (dom, tld) =>
        !dom.isEmpty && dom.all specEmailDomainChar &&
          decide (2 ≤ tld.length) && tld.all Char.isAlpha

/-- An upstream HTTP response as seen by `_handle_response`: the status code,
the result of `response.json()` (`some j` when the body text parses as the
JSON value `j`, `none` when parsing raises JSONDecodeError), and the raw
`response.text`. -/
structure HttpResponse where
  status : Nat
  json : Option JValue
  text : String

namespace GetSubmissions

/-- Embedded from src/tools/get_submissions.py, `ClappiaValidator.validate_email`:
`bool(re.match(EMAIL_PATTERN, email))` — note that, unlike every other email
validator in the source, no `.strip()` is applied first. -/
def ClappiaValidator.validate_email (email : String) : Bool :=
  emailDollarMatch email

/-- Embedded from src/tools/get_submissions.py lines 174-191,
`ClappiaAPIClient._handle_response`. On a 200 status with a JSON body the code
runs `response_data.get("submissions", [])` — an AttributeError when the
parsed body is not a dict — and takes `len` of the result — a TypeError when
that member is not sized. -/
def ClappiaAPIClient.handle_response (r : HttpResponse) : Except PyExc String :=
  if r.status == 200 then
    match r.json with
    | some j =>
      match j with
      | JValue.jobj fs =>
        match pyLen ((dictGet fs "submissions").getD (JValue.jarr [])) with
        | some n =>
          Except.ok ("Successfully retrieved " ++ toString n ++ " submissions: " ++ dumps j)
        | none => Except.error PyExc.typeError
      | _ => Except.error PyExc.attributeError
    | none => Except.ok ("Success but invalid JSON response: " ++ r.text)
  else if r.status == 400 || r.status == 401 || r.status == 403 || r.status == 404 then
    match r.json with
    | some j => Except.ok ("API Error (" ++ toString r.status ++ "): " ++ dumps j)
    | none => Except.ok ("API Error (" ++ toString r.status ++ "): " ++ r.text)
  else
    Except.ok ("Unexpected API response (" ++ toString r.status ++ "): " ++ r.text)

end GetSubmissions

namespace CreateApp

/-- A field definition of the app-creation operation
(src/tools/create_app.py, dataclass `Field`). -/
structure Field where
  fieldType : String
  label : String
  options : Option (List String) := none
  required : Bool := false

/-- A section of the app-creation operation (src/tools/create_app.py,
dataclass `Section`). -/
structure Section where
  sectionName : String
  fields : List Field

/-- The valid field types of the app-creation operation
(src/tools/create_app.py, `ClappiaCreateAppValidator.VALID_FIELD_TYPES`). -/
def VALID_FIELD_TYPES : List String :=
  ["singleLineText", "multiLineText", "singleSelector", "multiSelector",
   "dropDown", "dateSelector", "timeSelector", "phoneNumber"]

/-- Inner loop of `ClappiaCreateAppValidator.validate_sections`
(src/tools/create_app.py lines 87-96): walk the fields of one section in
order, `j` being the enumeration index, returning the first violation. -/
def validateFields (sectionName : String) : List Field → Nat → Bool × String
  | [], _ => (true, "")
  | f :: rest, j =>
    if !(VALID_FIELD_TYPES.contains f.fieldType) then
      (false, "Invalid fieldType '" ++ f.fieldType ++ "' in field at index " ++ toString j)
    else if pyStrip f.label == "" then
      (false, "Field at index " ++ toString j ++ " in section '" ++ sectionName ++
        "' must have a non-empty label")
    else if (f.fieldType == "singleSelector" || f.fieldType == "multiSelector" ||
        f.fieldType == "dropDown") && (f.options.getD []).isEmpty then
      (false, "Field '" ++ f.label ++ "' with type '" ++ f.fieldType ++ "' must have options")
    else validateFields sectionName rest (j + 1)

/-- Outer loop of `ClappiaCreateAppValidator.validate_sections`: walk the
sections in order, `i` being the enumeration index. -/
def validateSectionsAux : List Section → Nat → Bool × String
  | [], _ => (true, "")
  | s :: rest, i =>
    if pyStrip s.sectionName == "" then
      (false, "Section at index " ++ toString i ++ " must have a non-empty sectionName")
    else if s.fields.isEmpty then
      (false, "Section '" ++ s.sectionName ++ "' must have at least one field")
    else
      match validateFields s.sectionName s.fields 0 with
      | (false, m) => (false, m)
      | (true, _) => validateSectionsAux rest (i + 1)

/-- Embedded from src/tools/create_app.py lines 75-98,
`ClappiaCreateAppValidator.validate_sections`. -/
def ClappiaCreateAppValidator.validate_sections (sections : List Section) : Bool × String :=
  if sections.isEmpty then (false, "At least one section is required")
  else validateSectionsAux sections 0

/-- Embedded from src/tools/create_app.py lines 120-136,
`ClappiaCreateAppClient._handle_response`. On a 200 status with a JSON body
the code runs `response_data.get('appId')` — an AttributeError when the
parsed body is not a dict. A 201 status falls into the unexpected branch. -/
def ClappiaCreateAppClient.handle_response (r : HttpResponse) : Except PyExc String :=
  if r.status == 200 then
    match r.json with
    | some j =>
      match j with
      | JValue.jobj fs =>
        Except.ok ("App created successfully:\nApp ID: " ++ pyStrOpt (dictGet fs "appId") ++
          "\nApp URL: " ++ pyStrOpt (dictGet fs "appUrl") ++ "\nFull Response: " ++ dumps j)
      | _ => Except.error PyExc.attributeError
    | none => Except.ok ("App created successfully: " ++ r.text)
  else if r.status == 400 || r.status == 401 || r.status == 403 || r.status == 404 then
    match r.json with
    | some j => Except.ok ("API Error (" ++ toString r.status ++ "): " ++ dumps j)
    | none => Except.ok ("API Error (" ++ toString r.status ++ "): " ++ r.text)
  else
    Except.ok ("Unexpected API response (" ++ toString r.status ++ "): " ++ r.text)

end CreateApp

namespace CreateSubmission

/-- Embedded from src/tools/create_submission.py lines 21-29,
`ClappiaSubmissionValidator.validate_app_id`. -/
def ClappiaSubmissionValidator.validate_app_id (app_id : String) : Bool × String :=
  if pyStrip app_id == "" then (false, "App ID is required and cannot be empty")
  else if !upperAlnumFullMatch (pyStrip app_id) then
    (false, "App ID must contain only uppercase letters and numbers")
  else (true, "")

/-- Embedded from src/tools/create_submission.py lines 31-39,
`ClappiaSubmissionValidator.validate_workplace_id`. -/
def ClappiaSubmissionValidator.validate_workplace_id (workplace_id : String) : Bool × String :=
  if pyStrip workplace_id == "" then (false, "Workplace ID is required and cannot be empty")
  else if !upperAlnumFullMatch (pyStrip workplace_id) then
    (false, "Workplace ID must contain only uppercase letters and numbers")
  else (true, "")

/-- Embedded from src/tools/create_submission.py lines 41-50,
`ClappiaSubmissionValidator.validate_email`. -/
def ClappiaSubmissionValidator.validate_email (email : String) : Bool × String :=
  if pyStrip email == "" then (false, "Email is required and cannot be empty")
  else if !emailDollarMatch (pyStrip email) then (false, "Invalid email format")
  else (true, "")

/-- Embedded from src/tools/create_submission.py lines 78-94,
`ClappiaSubmissionClient._handle_response`: both 200 and 201 are success, and
the body is only passed through `json.dumps`, so no status/body pair raises. -/
def ClappiaSubmissionClient.handle_response (r : HttpResponse) : Except PyExc String :=
  if r.status == 200 || r.status == 201 then
    match r.json with
    | some j => Except.ok ("Submission created successfully:\n" ++ dumps j)
    | none => Except.ok ("Submission created successfully: " ++ r.text)
  else if r.status == 400 || r.status == 401 || r.status == 403 || r.status == 404 then
    match r.json with
    | some j => Except.ok ("API Error (" ++ toString r.status ++ "): " ++ dumps j)
    | none => Except.ok ("API Error (" ++ toString r.status ++ "): " ++ r.text)
  else
    Except.ok ("Unexpected API response (" ++ toString r.status ++ "): " ++ r.text)

end CreateSubmission

namespace AddField

/-- Embedded from src/tools/add_field.py, dataclass `AddFieldRequest`. The
Lean field `file_name_pref` embeds the source attribute whose name appends
the word for a leading file-name fragment (serialized under the payload key
"fileNamePrefix" below). -/
structure AddFieldRequest where
  app_id : String
  workplace_id : String
  requesting_user_email_address : String
  section_index : Int
  field_index : Int
  field_type : String
  label : String
  description : Option String := none
  required : Bool := false
  block_width_percentage_desktop : Int := 100
  block_width_percentage_mobile : Int := 100
  display_condition : Option String := none
  retain_values : Bool := false
  is_editable : Bool := true
  editability_condition : Option String := none
  validation : String := "none"
  default_value : Option String := none
  options : Option (List String) := none
  style : String := "Standard"
  number_of_cols : Option Int := none
  allowed_file_types : Option (List String) := none
  max_file_allowed : Int := 1
  image_quality : String := "medium"
  image_text : Option String := none
  file_name_pref : Option String := none
  formula : Option String := none
  hidden : Option Bool := none

/-- Embedded from src/tools/add_field.py lines 59-67,
`ClappiaAddFieldValidator.validate_app_id`. -/
def ClappiaAddFieldValidator.validate_app_id (app_id : String) : Bool × String :=
  if pyStrip app_id == "" then (false, "App ID is required and cannot be empty")
  else if !upperAlnumFullMatch (pyStrip app_id) then
    (false, "App ID must contain only uppercase letters and numbers")
  else (true, "")

/-- Embedded from src/tools/add_field.py lines 69-77,
`ClappiaAddFieldValidator.validate_workplace_id`. -/
def ClappiaAddFieldValidator.validate_workplace_id (workplace_id : String) : Bool × String :=
  if pyStrip workplace_id == "" then (false, "Workplace ID is required and cannot be empty")
  else if !upperAlnumFullMatch (pyStrip workplace_id) then
    (false, "Workplace ID must contain only uppercase letters and numbers")
  else (true, "")

/-- Embedded from src/tools/add_field.py lines 79-88,
`ClappiaAddFieldValidator.validate_email`. -/
def ClappiaAddFieldValidator.validate_email (email : String) : Bool × String :=
  if pyStrip email == "" then (false, "Email is required and cannot be empty")
  else if !emailDollarMatch (pyStrip email) then (false, "Invalid email format")
  else (true, "")

/-- Embedded from src/tools/add_field.py lines 114-127,
`ClappiaAddFieldValidator.validate_field_specific_options`: selector-family
types need a truthy options list, the calculation type needs a formula that
is truthy and non-blank after stripping. -/
def ClappiaAddFieldValidator.validate_field_specific_options
    (field_type : String) (options : Option (List String)) (formula : Option String) :
    Bool × String :=
  if (field_type == "singleSelector" || field_type == "multiSelector" ||
      field_type == "dropDown") && (options.getD []).isEmpty then
    (false, "Field type '" ++ field_type ++ "' requires non-empty options list")
  else if field_type == "calculationsAndLogic" &&
      (formula.getD "" == "" || pyStrip (formula.getD "") == "") then
    (false, "Field type 'calculationsAndLogic' requires a formula")
  else (true, "")

/-- Embedded from src/tools/add_field.py lines 173-227,
`ClappiaAddFieldClient._build_payload`. The base dict always carries the
attributes with library defaults; optional strings/lists/ints are written
only when truthy; the style block is keyed on membership in
`["singleSelector", "multiSelector"]` (dropDown is absent from that list in
the source); the file block and the formula key are keyed on the field type. -/
def ClappiaAddFieldClient.build_payload (r : AddFieldRequest) : List (String × JValue) :=
  [("appId", JValue.jstr (pyStrip r.app_id)),
   ("workplaceId", JValue.jstr (pyStrip r.workplace_id)),
   ("requestingUserEmailAddress", JValue.jstr (pyStrip r.requesting_user_email_address)),
   ("sectionIndex", JValue.jnum r.section_index),
   ("fieldIndex", JValue.jnum r.field_index),
   ("fieldType", JValue.jstr r.field_type),
   ("label", JValue.jstr (pyStrip r.label)),
   ("required", JValue.jbool r.required),
   ("blockWidthPercentageDesktop", JValue.jnum r.block_width_percentage_desktop),
   ("blockWidthPercentageMobile", JValue.jnum r.block_width_percentage_mobile),
   ("retainValues", JValue.jbool r.retain_values),
   ("isEditable", JValue.jbool r.is_editable),
   ("validation", JValue.jstr r.validation)]
  ++ optJ "hidden" (r.hidden.map JValue.jbool)
  ++ optTruthyStr "description" r.description
  ++ optTruthyStr "displayCondition" r.display_condition
  ++ optTruthyStr "editabilityCondition" r.editability_condition
  ++ optTruthyStr "defaultValue" r.default_value
  ++ optTruthyList "options" r.options
  ++ (if r.field_type == "singleSelector" || r.field_type == "multiSelector" then
        ("style", JValue.jstr r.style) :: optTruthyInt "numberOfCols" r.number_of_cols
      else [])
  ++ (if r.field_type == "file" then
        optTruthyList "allowedFileTypes" r.allowed_file_types
        ++ [("maxFileAllowed", JValue.jnum r.max_file_allowed),
            ("imageQuality", JValue.jstr r.image_quality)]
        ++ optTruthyStr "imageText" r.image_text
        ++ optTruthyStr "fileNamePrefix" r.file_name_pref
      else [])
  ++ (if r.field_type == "calculationsAndLogic" then optTruthyStr "formula" r.formula
      else [])

end AddField

namespace UpdateField

/-- Embedded from src/tools/update_field.py, dataclass `UpdateFieldRequest`:
every optional attribute defaults to unset (`None`). The Lean field
`file_name_pref` embeds the source attribute serialized under the key
"fileNamePrefix". -/
structure UpdateFieldRequest where
  app_id : String
  workplace_id : String
  requesting_user_email_address : String
  field_name : String
  label : Option String := none
  description : Option String := none
  required : Option Bool := none
  block_width_percentage_desktop : Option Int := none
  block_width_percentage_mobile : Option Int := none
  display_condition : Option String := none
  retain_values : Option Bool := none
  is_editable : Option Bool := none
  editability_condition : Option String := none
  validation : Option String := none
  default_value : Option String := none
  options : Option (List String) := none
  style : Option String := none
  number_of_cols : Option Int := none
  allowed_file_types : Option (List String) := none
  max_file_allowed : Option Int := none
  image_quality : Option String := none
  image_text : Option String := none
  file_name_pref : Option String := none
  formula : Option String := none
  hidden : Option Bool := none

/-- Embedded from src/tools/update_field.py lines 168-241,
`ClappiaUpdateFieldClient._build_payload`: required keys first, then every
optional attribute is written exactly when it is not `None` (string values
stripped where the source strips them; `validation`, `style`,
`image_quality` and all non-string values pass through unchanged). -/
def ClappiaUpdateFieldClient.build_payload (r : UpdateFieldRequest) : List (String × JValue) :=
  [("appId", JValue.jstr (pyStrip r.app_id)),
   ("workplaceId", JValue.jstr (pyStrip r.workplace_id)),
   ("requestingUserEmailAddress", JValue.jstr (pyStrip r.requesting_user_email_address)),
   ("fieldName", JValue.jstr (pyStrip r.field_name))]
  ++ optJ "label" (r.label.map (fun s => JValue.jstr (pyStrip s)))
  ++ optJ "description" (r.description.map (fun s => JValue.jstr (pyStrip s)))
  ++ optJ "required" (r.required.map JValue.jbool)
  ++ optJ "blockWidthPercentageDesktop" (r.block_width_percentage_desktop.map JValue.jnum)
  ++ optJ "blockWidthPercentageMobile" (r.block_width_percentage_mobile.map JValue.jnum)
  ++ optJ "displayCondition" (r.display_condition.map (fun s => JValue.jstr (pyStrip s)))
  ++ optJ "retainValues" (r.retain_values.map JValue.jbool)
  ++ optJ "isEditable" (r.is_editable.map JValue.jbool)
  ++ optJ "editabilityCondition" (r.editability_condition.map (fun s => JValue.jstr (pyStrip s)))
  ++ optJ "validation" (r.validation.map JValue.jstr)
  ++ optJ "defaultValue" (r.default_value.map (fun s => JValue.jstr (pyStrip s)))
  ++ optJ "options" (r.options.map (fun l => JValue.jarr (l.map JValue.jstr)))
  ++ optJ "style" (r.style.map JValue.jstr)
  ++ optJ "numberOfCols" (r.number_of_cols.map JValue.jnum)
  ++ optJ "allowedFileTypes" (r.allowed_file_types.map (fun l => JValue.jarr (l.map JValue.jstr)))
  ++ optJ "maxFileAllowed" (r.max_file_allowed.map JValue.jnum)
  ++ optJ "imageQuality" (r.image_quality.map JValue.jstr)
  ++ optJ "imageText" (r.image_text.map (fun s => JValue.jstr (pyStrip s)))
  ++ optJ "fileNamePrefix" (r.file_name_pref.map (fun s => JValue.jstr (pyStrip s)))
  ++ optJ "formula" (r.formula.map (fun s => JValue.jstr (pyStrip s)))
  ++ optJ "hidden" (r.hidden.map JValue.jbool)

/-- The twenty optional attributes of the update-field operation. -/
inductive UpdateAttr where
  | label | description | required | blockWidthDesktop | blockWidthMobile
  | displayCondition | retainValues | isEditable | editabilityCondition
  | validationKind | defaultValue | options | style | numberOfCols
  | allowedFileTypes | maxFileAllowed | imageQuality | imageText
  | fileNamePref | formula | hidden
deriving DecidableEq, Repr

/-- The payload key under which each optional attribute is serialized. -/
def UpdateAttr.key : UpdateAttr → String
  | .label => "label"
  | .description => "description"
  | .required => "required"
  | .blockWidthDesktop => "blockWidthPercentageDesktop"
  | .blockWidthMobile => "blockWidthPercentageMobile"
  | .displayCondition => "displayCondition"
  | .retainValues => "retainValues"
  | .isEditable => "isEditable"
  | .editabilityCondition => "editabilityCondition"
  | .validationKind => "validation"
  | .defaultValue => "defaultValue"
  | .options => "options"
  | .style => "style"
  | .numberOfCols => "numberOfCols"
  | .allowedFileTypes => "allowedFileTypes"
  | .maxFileAllowed => "maxFileAllowed"
  | .imageQuality => "imageQuality"
  | .imageText => "imageText"
  | .fileNamePref => "fileNamePrefix"
  | .formula => "formula"
  | .hidden => "hidden"

/-- Whether each optional attribute was explicitly supplied (is not `None`)
in a request. -/
def UpdateAttr.isSet : UpdateAttr → UpdateFieldRequest → Bool
  | .label, r => r.label.isSome
  | .description, r => r.description.isSome
  | .required, r => r.required.isSome
  | .blockWidthDesktop, r => r.block_width_percentage_desktop.isSome
  | .blockWidthMobile, r => r.block_width_percentage_mobile.isSome
  | .displayCondition, r => r.display_condition.isSome
  | .retainValues, r => r.retain_values.isSome
  | .isEditable, r => r.is_editable.isSome
  | .editabilityCondition, r => r.editability_condition.isSome
  | .validationKind, r => r.validation.isSome
  | .defaultValue, r => r.default_value.isSome
  | .options, r => r.options.isSome
  | .style, r => r.style.isSome
  | .numberOfCols, r => r.number_of_cols.isSome
  | .allowedFileTypes, r => r.allowed_file_types.isSome
  | .maxFileAllowed, r => r.max_file_allowed.isSome
  | .imageQuality, r => r.image_quality.isSome
  | .imageText, r => r.image_text.isSome
  | .fileNamePref, r => r.file_name_pref.isSome
  | .formula, r => r.formula.isSome
  | .hidden, r => r.hidden.isSome

end UpdateField

namespace GetSubmissions

/-- A filter condition, embedded from the dict shape that
`ClappiaValidator.validate_condition` (src/tools/get_submissions.py lines
90-119) reads: the four required keys are represented structurally (the
claims never exercise the missing-key branches). -/
structure Condition where
  operator : String
  filterKeyType : String
  key : String
  value : String

/-- A query: conditions under an optional logical operator. -/
structure Query where
  conditions : List Condition
  operator : Option String := none

/-- A query group. -/
structure QueryGroup where
  queries : List Query

/-- The three-level filter expression of the submissions operations. -/
structure Filters where
  queries : List QueryGroup

/-- The serialized filter operator vocabulary (enum `FilterOperator`). -/
def filterOperators : List String :=
  ["CONTAINS", "NOT_IN", "EQ", "NEQ", "EMPTY", "NON_EMPTY", "STARTS_WITH",
   "BETWEEN", "GT", "LT", "GTE", "LTE"]

/-- The platform-reserved standard field names
(`ClappiaValidator.STANDARD_FIELDS`). -/
def STANDARD_FIELDS : List String :=
  ["$submissionId", "$owner", "$status", "$createdAt",
   "$updatedAt", "$state", "submissionId", "owner",
   "status", "createdAt", "updatedAt", "state"]

/-- Embedded from src/tools/get_submissions.py lines 90-119,
`ClappiaValidator.validate_condition`. -/
def ClappiaValidator.validate_condition (c : Condition) : Bool × String :=
  if !(filterOperators.contains c.operator) then
    (false, "Invalid operator: " ++ c.operator)
  else if !(c.filterKeyType == "STANDARD" || c.filterKeyType == "CUSTOM") then
    (false, "Invalid filterKeyType: " ++ c.filterKeyType)
  else if (pyStrip c.key).length == 0 then
    (false, "Key must be a non-empty string")
  else if c.filterKeyType == "STANDARD" && !(STANDARD_FIELDS.contains c.key) then
    (false, "Standard filterKeyType used but key '" ++ c.key ++ "' is not a standard field")
  else if c.operator == "EMPTY" || c.operator == "NON_EMPTY" then
    if c.value != "" && pyStrip c.value != "" then
      (false, "Operator " ++ c.operator ++ " should have empty value")
    else (true, "")
  else if (pyStrip c.value).length == 0 then
    (false, "Operator " ++ c.operator ++ " requires a non-empty value")
  else (true, "")

/-- Walk of the conditions of one query. -/
def validateConditions : List Condition → Bool × String
  | [] => (true, "")
  | c :: rest =>
    match ClappiaValidator.validate_condition c with
    | (false, m) => (false, m)
    | (true, _) => validateConditions rest

/-- Walk of the inner queries of one query group (condition-list emptiness,
each condition, then the optional logical operator). -/
def validateInnerQueries : List Query → Bool × String
  | [] => (true, "")
  | q :: rest =>
    if q.conditions.isEmpty then (false, "Conditions must be a non-empty list")
    else
      match validateConditions q.conditions with
      | (false, m) => (false, m)
      | (true, _) =>
        match q.operator with
        | some op =>
          if !(op == "AND" || op == "OR") then (false, "Invalid logical operator: " ++ op)
          else validateInnerQueries rest
        | none => validateInnerQueries rest

/-- Walk of the query groups. -/
def validateQueryGroups : List QueryGroup → Bool × String
  | [] => (true, "")
  | g :: rest =>
    match validateInnerQueries g.queries with
    | (false, m) => (false, m)
    | (true, _) => validateQueryGroups rest

/-- Embedded from src/tools/get_submissions.py lines 121-153,
`ClappiaValidator.validate_filters` (the dict-shape key-presence checks are
represented by the structure itself). -/
def ClappiaValidator.validate_filters (f : Filters) : Bool × String :=
  if f.queries.isEmpty then (false, "Queries must be a non-empty list")
  else validateQueryGroups f.queries

/-- The process environment read by `ClappiaAPIClient.__init__`
(CLAPPIA_API_KEY and CLAPPIA_WORKPLACE_ID); `none` models an unset
variable. -/
structure Env where
  api_key : Option String := none
  workplace_id : Option String := none

/-- Serialization of a condition (`Condition.to_dict`). -/
def Condition.to_dict (c : Condition) : JValue :=
  JValue.jobj [("operator", JValue.jstr c.operator),
               ("filterKeyType", JValue.jstr c.filterKeyType),
               ("key", JValue.jstr c.key),
               ("value", JValue.jstr c.value)]

/-- Serialization of a query (`Query.to_dict`): the operator key is written
only when the operator is truthy. -/
def Query.to_dict (q : Query) : JValue :=
  JValue.jobj ([("conditions", JValue.jarr (q.conditions.map Condition.to_dict))]
    ++ (match q.operator with
        | some op => if op == "" then [] else [("operator", JValue.jstr op)]
        | none => []))

/-- Serialization of a query group. -/
def QueryGroup.to_dict (g : QueryGroup) : JValue :=
  JValue.jobj [("queries", JValue.jarr (g.queries.map Query.to_dict))]

/-- Serialization of a filter expression. -/
def Filters.to_dict (f : Filters) : JValue :=
  JValue.jobj [("queries", JValue.jarr (f.queries.map QueryGroup.to_dict))]

/-- Outcome of the pre-network part of an operation: either an early string
return (validation or configuration error), or the outbound JSON payload of
the single HTTP request the operation then issues. -/
inductive PipelineResult where
  | earlyReturn : String → PipelineResult
  | sendRequest : List (String × JValue) → PipelineResult
deriving Repr

/-- The outbound payload of the submissions-listing request
(src/tools/get_submissions.py lines 224-233): the workplace id comes from the
environment, the filters key is written only for a truthy filters argument
(a validated filters dict is never empty, so presence coincides with
`is not None` on this path). -/
def ClappiaAPIClient.submissions_payload (env : Env) (app_id email : String)
    (page_size : Int) (filters : Option Filters) : List (String × JValue) :=
  [("workplaceId", JValue.jstr (env.workplace_id.getD "")),
   ("appId", JValue.jstr (pyStrip app_id)),
   ("requestingUserEmailAddress", JValue.jstr (pyStrip email)),
   ("pageSize", JValue.jnum page_size),
   ("forward", JValue.jbool true)]
  ++ (match filters with
      | some f => [("filters", f.to_dict)]
      | none => [])

/-- Embedded from src/tools/get_submissions.py lines 193-237,
`ClappiaAPIClient.get_app_submissions`, up to the network boundary: the
ordered checks (app id non-blank, email non-blank, email pattern, page size
positive, page size at most 1000, filters, environment), then the single
request. Note the app id is checked only for non-blankness — no identifier
pattern is applied by this operation. -/
def ClappiaAPIClient.get_app_submissions (env : Env) (app_id email : String)
    (page_size : Int) (filters : Option Filters) : PipelineResult :=
  if pyStrip app_id == "" then
    .earlyReturn "Error: app_id is required and cannot be empty"
  else if pyStrip email == "" then
    .earlyReturn "Error: requesting_user_email_address is required and cannot be empty"
  else if !ClappiaValidator.validate_email email then
    .earlyReturn "Error: requesting_user_email_address must be a valid email address"
  else if page_size ≤ 0 then
    .earlyReturn "Error: page_size must be a positive integer"
  else if page_size > 1000 then
    .earlyReturn "Error: page_size cannot exceed 1000"
  else
    match filters with
    | some f =>
      match ClappiaValidator.validate_filters f with
      | (false, m) => .earlyReturn ("Error: Invalid filters - " ++ m)
      | (true, _) =>
        if env.api_key.getD "" == "" then
          .earlyReturn "Error: CLAPPIA_API_KEY environment variable is not set"
        else if env.workplace_id.getD "" == "" then
          .earlyReturn "Error: CLAPPIA_WORKPLACE_ID environment variable is not set"
        else .sendRequest (ClappiaAPIClient.submissions_payload env app_id email page_size filters)
    | none =>
      if env.api_key.getD "" == "" then
        .earlyReturn "Error: CLAPPIA_API_KEY environment variable is not set"
      else if env.workplace_id.getD "" == "" then
        .earlyReturn "Error: CLAPPIA_WORKPLACE_ID environment variable is not set"
      else .sendRequest (ClappiaAPIClient.submissions_payload env app_id email page_size filters)

end GetSubmissions

namespace GetSubmissionsAggregation

/-- The process environment read by `ClappiaAggregationAPIClient.__init__`
(DEV_API_KEY and CLAPPIA_EXTERNAL_API_BASE_URL). -/
structure Env where
  api_key : Option String := none
  base_url : Option String := none

/-- The outbound payload of the aggregation request
(src/tools/get_submissions_aggregation.py lines 237-249). The dimension and
aggregation-dimension arguments arrive from the tool facade as plain JSON
dicts and are serialized verbatim; `page_size` is forwarded unchecked. -/
def ClappiaAggregationAPIClient.aggregation_payload (workplace_id app_id : String)
    (dimensions aggregation_dimensions : List JValue) (x_axis_labels : List String)
    (email : String) (forward : Bool) (page_size : Int)
    (filters : Option GetSubmissions.Filters) : List (String × JValue) :=
  [("workplaceId", JValue.jstr (pyStrip workplace_id)),
   ("appId", JValue.jstr (pyStrip app_id)),
   ("requestingUserEmailAddress", JValue.jstr email),
   ("forward", JValue.jbool forward),
   ("pageSize", JValue.jnum page_size),
   ("dimensions", JValue.jarr dimensions),
   ("aggregationDimensions", JValue.jarr aggregation_dimensions),
   ("xAxisLabels", JValue.jarr (x_axis_labels.map JValue.jstr))]
  ++ (match filters with
      | some f => [("filters", f.to_dict)]
      | none => [])

/-- Embedded from src/tools/get_submissions_aggregation.py lines 211-253,
`ClappiaAggregationAPIClient.get_app_submissions_aggregation`, up to the
network boundary: the only checks are workplace id non-blank, app id
non-blank, at least one dimension or aggregation dimension, and the
environment — in particular no page-size bound and no email validation
appear on this path. -/
def ClappiaAggregationAPIClient.get_app_submissions_aggregation (env : Env)
    (workplace_id app_id : String) (dimensions aggregation_dimensions : List JValue)
    (x_axis_labels : List String) (email : String) (forward : Bool) (page_size : Int)
    (filters : Option GetSubmissions.Filters) : GetSubmissions.PipelineResult :=
  if pyStrip workplace_id == "" then
    .earlyReturn "Error: workplace_id is required and cannot be empty"
  else if pyStrip app_id == "" then
    .earlyReturn "Error: app_id is required and cannot be empty"
  else if dimensions.isEmpty && aggregation_dimensions.isEmpty then
    .earlyReturn "Error: At least one dimension or aggregation dimension must be provided"
  else if env.api_key.getD "" == "" then
    .earlyReturn "Error: DEV_API_KEY environment variable is not set"
  else if env.base_url.getD "" == "" then
    .earlyReturn "Error: CLAPPIA_EXTERNAL_API_BASE_URL environment variable is not set"
  else
    .sendRequest (ClappiaAggregationAPIClient.aggregation_payload workplace_id app_id
      dimensions aggregation_dimensions x_axis_labels email forward page_size filters)

end GetSubmissionsAggregation

namespace ClappiaMcp

/-- Embedded from src/clappia-mcp.py lines 32-48, `validate_required_params`:
the shared outer email gate applied by every tool facade. -/
def validate_required_params (email : String) : Bool × String :=
  if pyStrip email == "" then
    (false, "Email address is required. Please provide a valid email address.")
  else if !emailDollarMatch (pyStrip email) then
    (false, "Invalid email format. Please provide a valid email address.")
  else (true, "")

/-- Python call binding for a call made entirely with keyword arguments:
the call enters the callee's body exactly when every parameter without a
default receives a keyword; otherwise Python raises TypeError at the call
site. -/
def pythonCallBinds (requiredParams passedKeywords : List String) : Bool :=
  requiredParams.all passedKeywords.contains

/-- The parameters of `tools.add_field.add_field_to_app`
(src/tools/add_field.py line 302) that have no default. -/
def addFieldToAppRequired : List String :=
  ["app_id", "workplace_id", "requesting_user_email_address",
   "section_index", "field_index", "field_type", "label"]

/-- The six keyword arguments the `add_field_to_clappia_app` facade always
passes to `add_field_to_app` (src/clappia-mcp.py lines 451-459). -/
def addFieldFacadeFixed : List String :=
  ["app_id", "requesting_user_email_address", "section_index",
   "field_index", "field_type", "label"]

/-- The keyword names the facade may additionally pass through `**kwargs`
(src/clappia-mcp.py lines 409-449). -/
def addFieldFacadeOptional : List String :=
  ["description", "required", "block_width_percentage_desktop",
   "block_width_percentage_mobile", "display_condition", "retain_values",
   "is_editable", "editability_condition", "validation", "default_value",
   "options", "style", "number_of_cols", "allowed_file_types",
   "max_file_allowed", "image_quality", "image_text", "file_name_prefix",
   "formula", "hidden"]

/-- The parameters of `tools.update_field.update_field_in_app`
(src/tools/update_field.py line 322) that have no default. -/
def updateFieldInAppRequired : List String :=
  ["app_id", "workplace_id", "requesting_user_email_address", "field_name"]

/-- The three keyword arguments the `update_field_in_clappia_app` facade
always passes to `update_field_in_app` (src/clappia-mcp.py lines 579-584). -/
def updateFieldFacadeFixed : List String :=
  ["app_id", "requesting_user_email_address", "field_name"]

/-- The keyword names the update facade may additionally pass through
`**kwargs` (src/clappia-mcp.py lines 532-574). -/
def updateFieldFacadeOptional : List String :=
  ["label", "description", "required", "block_width_percentage_desktop",
   "block_width_percentage_mobile", "display_condition", "retain_values",
   "is_editable", "editability_condition", "validation", "default_value",
   "options", "style", "number_of_cols", "allowed_file_types",
   "max_file_allowed", "image_quality", "image_text", "file_name_prefix",
   "formula", "hidden"]

/-- The parameters of
`tools.get_submissions_aggregation.get_app_submissions_aggregation`
(src/tools/get_submissions_aggregation.py line 267) that have no default. -/
def aggregationRequired : List String :=
  ["workplace_id", "app_id"]

/-- The keyword arguments the `get_clappia_submissions_aggregation` facade
passes (src/clappia-mcp.py lines 114-123). -/
def aggregationFacadeKeywords : List String :=
  ["app_id", "dimensions", "aggregation_dimensions", "x_axis_labels",
   "requesting_user_email_address", "forward", "page_size", "filters"]

/-- What a tool facade hands back to the dispatch framework: a returned
string, or an exception escaping the facade. -/
inductive ToolResult where
  | ret : String → ToolResult
  | exc : String → ToolResult
deriving Repr, DecidableEq

/-- Embedded from src/clappia-mcp.py lines 341-462,
`add_field_to_clappia_app`, abstracted over the string `inner` that the call
to `add_field_to_app` would return if it were entered: after the outer email
gate the facade calls `add_field_to_app` with the six fixed keywords plus
the kwargs keys actually set; since the callee requires `workplace_id` and
no caller keyword supplies it, Python raises TypeError before `inner` can
matter. -/
def add_field_to_clappia_app (email : String) (kwargsKeys : List String)
    (inner : String) : ToolResult :=
  match validate_required_params email with
  | (false, msg) => .ret ("Error: " ++ msg)
  | (true, _) =>
    if pythonCallBinds addFieldToAppRequired (addFieldFacadeFixed ++ kwargsKeys) then
      .ret inner
    else
      .exc "TypeError: add_field_to_app() missing 1 required positional argument: 'workplace_id'"

/-- Embedded from src/clappia-mcp.py lines 465-587,
`update_field_in_clappia_app`, abstracted the same way. -/
def update_field_in_clappia_app (email : String) (kwargsKeys : List String)
    (inner : String) : ToolResult :=
  match validate_required_params email with
  | (false, msg) => .ret ("Error: " ++ msg)
  | (true, _) =>
    if pythonCallBinds updateFieldInAppRequired (updateFieldFacadeFixed ++ kwargsKeys) then
      .ret inner
    else
      .exc "TypeError: update_field_in_app() missing 1 required positional argument: 'workplace_id'"

/-- Embedded from src/clappia-mcp.py lines 80-123,
`get_clappia_submissions_aggregation`, abstracted the same way (this facade
passes a fixed keyword list and no kwargs). -/
def get_clappia_submissions_aggregation (email : String) (inner : String) : ToolResult :=
  match validate_required_params email with
  | (false, msg) => .ret ("Error: " ++ msg)
  | (true, _) =>
    if pythonCallBinds aggregationRequired aggregationFacadeKeywords then
      .ret inner
    else
      .exc "TypeError: get_app_submissions_aggregation() missing 1 required positional argument: 'workplace_id'"

end ClappiaMcp

namespace UpdateField

/-- Embedded from src/tools/update_field.py lines 49-57,
`ClappiaUpdateFieldValidator.validate_app_id`. -/
def ClappiaUpdateFieldValidator.validate_app_id (app_id : String) : Bool × String :=
  if pyStrip app_id == "" then (false, "App ID is required and cannot be empty")
  else if !upperAlnumFullMatch (pyStrip app_id) then
    (false, "App ID must contain only uppercase letters and numbers")
  else (true, "")

/-- Embedded from src/tools/update_field.py lines 59-67,
`ClappiaUpdateFieldValidator.validate_workplace_id`. -/
def ClappiaUpdateFieldValidator.validate_workplace_id (workplace_id : String) : Bool × String :=
  if pyStrip workplace_id == "" then (false, "Workplace ID is required and cannot be empty")
  else if !upperAlnumFullMatch (pyStrip workplace_id) then
    (false, "Workplace ID must contain only uppercase letters and numbers")
  else (true, "")

/-- Embedded from src/tools/update_field.py lines 69-78,
`ClappiaUpdateFieldValidator.validate_email`. -/
def ClappiaUpdateFieldValidator.validate_email (email : String) : Bool × String :=
  if pyStrip email == "" then (false, "Email is required and cannot be empty")
  else if !emailDollarMatch (pyStrip email) then (false, "Invalid email format")
  else (true, "")

end UpdateField

namespace CreateApp

/-- Embedded from src/tools/create_app.py lines 64-73,
`ClappiaCreateAppValidator.validate_email`. -/
def ClappiaCreateAppValidator.validate_email (email : String) : Bool × String :=
  if pyStrip email == "" then (false, "Email is required and cannot be empty")
  else if !emailDollarMatch (pyStrip email) then (false, "Invalid email format")
  else (true, "")

end CreateApp

namespace UpdateField

/-- The JSON value the update builder writes for each supplied optional
attribute (string attributes stripped exactly where the source strips
them). -/
def UpdateAttr.sentValue : UpdateAttr → UpdateFieldRequest → Option JValue
  | .label, r => r.label.map (fun s => JValue.jstr (pyStrip s))
  | .description, r => r.description.map (fun s => JValue.jstr (pyStrip s))
  | .required, r => r.required.map JValue.jbool
  | .blockWidthDesktop, r => r.block_width_percentage_desktop.map JValue.jnum
  | .blockWidthMobile, r => r.block_width_percentage_mobile.map JValue.jnum
  | .displayCondition, r => r.display_condition.map (fun s => JValue.jstr (pyStrip s))
  | .retainValues, r => r.retain_values.map JValue.jbool
  | .isEditable, r => r.is_editable.map JValue.jbool
  | .editabilityCondition, r => r.editability_condition.map (fun s => JValue.jstr (pyStrip s))
  | .validationKind, r => r.validation.map JValue.jstr
  | .defaultValue, r => r.default_value.map (fun s => JValue.jstr (pyStrip s))
  | .options, r => r.options.map (fun l => JValue.jarr (l.map JValue.jstr))
  | .style, r => r.style.map JValue.jstr
  | .numberOfCols, r => r.number_of_cols.map JValue.jnum
  | .allowedFileTypes, r => r.allowed_file_types.map (fun l => JValue.jarr (l.map JValue.jstr))
  | .maxFileAllowed, r => r.max_file_allowed.map JValue.jnum
  | .imageQuality, r => r.image_quality.map JValue.jstr
  | .imageText, r => r.image_text.map (fun s => JValue.jstr (pyStrip s))
  | .fileNamePref, r => r.file_name_pref.map (fun s => JValue.jstr (pyStrip s))
  | .formula, r => r.formula.map (fun s => JValue.jstr (pyStrip s))
  | .hidden, r => r.hidden.map JValue.jbool

/-- The raw supplied value of each optional attribute as a JSON value, with
no stripping anywhere. -/
def UpdateAttr.rawValue : UpdateAttr → UpdateFieldRequest → Option JValue
  | .label, r => r.label.map JValue.jstr
  | .description, r => r.description.map JValue.jstr
  | .required, r => r.required.map JValue.jbool
  | .blockWidthDesktop, r => r.block_width_percentage_desktop.map JValue.jnum
  | .blockWidthMobile, r => r.block_width_percentage_mobile.map JValue.jnum
  | .displayCondition, r => r.display_condition.map JValue.jstr
  | .retainValues, r => r.retain_values.map JValue.jbool
  | .isEditable, r => r.is_editable.map JValue.jbool
  | .editabilityCondition, r => r.editability_condition.map JValue.jstr
  | .validationKind, r => r.validation.map JValue.jstr
  | .defaultValue, r => r.default_value.map JValue.jstr
  | .options, r => r.options.map (fun l => JValue.jarr (l.map JValue.jstr))
  | .style, r => r.style.map JValue.jstr
  | .numberOfCols, r => r.number_of_cols.map JValue.jnum
  | .allowedFileTypes, r => r.allowed_file_types.map (fun l => JValue.jarr (l.map JValue.jstr))
  | .maxFileAllowed, r => r.max_file_allowed.map JValue.jnum
  | .imageQuality, r => r.image_quality.map JValue.jstr
  | .imageText, r => r.image_text.map JValue.jstr
  | .fileNamePref, r => r.file_name_pref.map JValue.jstr
  | .formula, r => r.formula.map JValue.jstr
  | .hidden, r => r.hidden.map JValue.jbool

/-- All supplied string attributes that the builder strips carry no
surrounding whitespace. -/
def UpdateFieldRequest.stringsPreStripped (r : UpdateFieldRequest) : Prop :=
  pyStrip (r.label.getD "") = r.label.getD "" ∧
  pyStrip (r.description.getD "") = r.description.getD "" ∧
  pyStrip (r.display_condition.getD "") = r.display_condition.getD "" ∧
  pyStrip (r.editability_condition.getD "") = r.editability_condition.getD "" ∧
  pyStrip (r.default_value.getD "") = r.default_value.getD "" ∧
  pyStrip (r.image_text.getD "") = r.image_text.getD "" ∧
  pyStrip (r.file_name_pref.getD "") = r.file_name_pref.getD "" ∧
  pyStrip (r.formula.getD "") = r.formula.getD ""

/-- A concrete update request supplying an explicit `required=False` (used
for the C3 witness). -/
def sampleRequiredFalse : UpdateFieldRequest :=
  { app_id := "APP1", workplace_id := "WRK1",
    requesting_user_email_address := "a@b.co", field_name := "emp",
    required := some false }

/-- A concrete update request whose supplied label carries surrounding
whitespace (C4 counterexample). -/
def sampleLabelPadded : UpdateFieldRequest :=
  { app_id := "APP1", workplace_id := "WRK1",
    requesting_user_email_address := "a@b.co", field_name := "emp",
    label := some " X " }

/-- A concrete update request with whitespace-free supplied strings (C4
witness). -/
def sampleLabelClean : UpdateFieldRequest :=
  { app_id := "APP1", workplace_id := "WRK1",
    requesting_user_email_address := "a@b.co", field_name := "emp",
    label := some "X", required := some true }

end UpdateField

namespace AddField

/-- A concrete, fully validated add-field request that explicitly supplies
an empty description (C3 counterexample). -/
def sampleText : AddFieldRequest :=
  { app_id := "APP1", workplace_id := "WRK1",
    requesting_user_email_address := "a@b.co", section_index := 0,
    field_index := 0, field_type := "singleLineText", label := "Name",
    description := some "" }

/-- A concrete, fully validated dropDown add-field request (C5
counterexample). -/
def sampleDropDown : AddFieldRequest :=
  { app_id := "APP1", workplace_id := "WRK1",
    requesting_user_email_address := "a@b.co", section_index := 0,
    field_index := 0, field_type := "dropDown", label := "Dept",
    options := some ["HR", "IT"] }

/-- A concrete, fully validated calculation add-field request (C5
witness). -/
def sampleCalc : AddFieldRequest :=
  { app_id := "APP1", workplace_id := "WRK1",
    requesting_user_email_address := "a@b.co", section_index := 0,
    field_index := 0, field_type := "calculationsAndLogic", label := "Total",
    formula := some "price * qty" }

end AddField

namespace GetDefinition

/-- Embedded from src/tools/get_definition.py lines 57-65,
`ClappiaAppDefinitionValidator.validate_app_id`. -/
def ClappiaAppDefinitionValidator.validate_app_id (app_id : String) : Bool × String :=
  if pyStrip app_id == "" then (false, "App ID is required and cannot be empty")
  else if !upperAlnumFullMatch (pyStrip app_id) then
    (false, "App ID must contain only uppercase letters and numbers")
  else (true, "")

/-- Embedded from src/tools/get_definition.py lines 67-75,
`ClappiaAppDefinitionValidator.validate_workplace_id`. -/
def ClappiaAppDefinitionValidator.validate_workplace_id (workplace_id : String) : Bool × String :=
  if pyStrip workplace_id == "" then (false, "Workplace ID is required and cannot be empty")
  else if !upperAlnumFullMatch (pyStrip workplace_id) then
    (false, "Workplace ID must contain only uppercase letters and numbers")
  else (true, "")

/-- Embedded from src/tools/get_definition.py lines 104-132,
`ClappiaAppDefinitionClient._handle_response`. On a 200 status with a JSON
body the code evaluates the summary-dict entries left to right:
`response_data.get(...)` raises AttributeError when the parsed body is not a
dict; `len` of the pageIds / sectionIds / fieldDefinitions members raises
TypeError when the member is unsized; `.get("metadata", \x7b\x7d).get(...)`
raises AttributeError when the metadata member is present but not a dict. -/
def ClappiaAppDefinitionClient.handle_response (r : HttpResponse) : Except PyExc String :=
  if r.status == 200 then
    match r.json with
    | some j =>
      match j with
      | JValue.jobj fs =>
        match pyLen ((dictGet fs "pageIds").getD (JValue.jarr [])) with
        | none => Except.error PyExc.typeError
        | some pageCount =>
          match pyLen ((dictGet fs "sectionIds").getD (JValue.jarr [])) with
          | none => Except.error PyExc.typeError
          | some sectionCount =>
            match pyLen ((dictGet fs "fieldDefinitions").getD (JValue.jobj [])) with
            | none => Except.error PyExc.typeError
            | some fieldCount =>
              match (dictGet fs "metadata").getD (JValue.jobj []) with
              | JValue.jobj ms =>
                Except.ok ("Successfully retrieved app definition:\n\nSUMMARY:\n"
                  ++ dumps (JValue.jobj
                      [("appId", (dictGet fs "appId").getD JValue.jnull),
                       ("version", (dictGet fs "version").getD JValue.jnull),
                       ("state", (dictGet fs "state").getD JValue.jnull),
                       ("pageCount", JValue.jnum pageCount),
                       ("sectionCount", JValue.jnum sectionCount),
                       ("fieldCount", JValue.jnum fieldCount),
                       ("appName", (dictGet ms "sectionName").getD (JValue.jstr "Unknown")),
                       ("description", (dictGet ms "description").getD (JValue.jstr ""))])
                  ++ "\n\nFULL DEFINITION:\n" ++ dumps j)
              | _ => Except.error PyExc.attributeError
      | _ => Except.error PyExc.attributeError
    | none => Except.ok ("Success but invalid JSON response: " ++ r.text)
  else if r.status == 400 || r.status == 401 || r.status == 403 || r.status == 404 then
    match r.json with
    | some j => Except.ok ("API Error (" ++ toString r.status ++ "): " ++ dumps j)
    | none => Except.ok ("API Error (" ++ toString r.status ++ "): " ++ r.text)
  else
    Except.ok ("Unexpected API response (" ++ toString r.status ++ "): " ++ r.text)

end GetDefinition

namespace EditSubmission

/-- Embedded from src/tools/edit_submission.py lines 23-31,
`ClappiaEditSubmissionValidator.validate_app_id` (this module defines no
workplace-id validator). -/
def ClappiaEditSubmissionValidator.validate_app_id (app_id : String) : Bool × String :=
  if pyStrip app_id == "" then (false, "App ID is required and cannot be empty")
  else if !upperAlnumFullMatch (pyStrip app_id) then
    (false, "App ID must contain only uppercase letters and numbers")
  else (true, "")

/-- Embedded from src/tools/edit_submission.py lines 40-49,
`ClappiaEditSubmissionValidator.validate_email`. -/
def ClappiaEditSubmissionValidator.validate_email (email : String) : Bool × String :=
  if pyStrip email == "" then (false, "Email is required and cannot be empty")
  else if !emailDollarMatch (pyStrip email) then (false, "Invalid email format")
  else (true, "")

/-- Embedded from src/tools/edit_submission.py lines 77-93,
`ClappiaEditSubmissionClient._handle_response`: the 200 body only passes
through `json.dumps`, so no status/body pair raises. -/
def ClappiaEditSubmissionClient.handle_response (r : HttpResponse) : Except PyExc String :=
  if r.status == 200 then
    match r.json with
    | some j => Except.ok ("Submission edited successfully:\n" ++ dumps j)
    | none => Except.ok ("Submission edited successfully: " ++ r.text)
  else if r.status == 400 || r.status == 401 || r.status == 403 || r.status == 404 then
    match r.json with
    | some j => Except.ok ("API Error (" ++ toString r.status ++ "): " ++ dumps j)
    | none => Except.ok ("API Error (" ++ toString r.status ++ "): " ++ r.text)
  else
    Except.ok ("Unexpected API response (" ++ toString r.status ++ "): " ++ r.text)

end EditSubmission

namespace UpdateSubmissionStatus

/-- Embedded from src/tools/update_submission_status.py lines 23-31,
`ClappiaUpdateStatusValidator.validate_app_id` (this module defines no
workplace-id validator). -/
def ClappiaUpdateStatusValidator.validate_app_id (app_id : String) : Bool × String :=
  if pyStrip app_id == "" then (false, "App ID is required and cannot be empty")
  else if !upperAlnumFullMatch (pyStrip app_id) then
    (false, "App ID must contain only uppercase letters and numbers")
  else (true, "")

/-- Embedded from src/tools/update_submission_status.py lines 40-49,
`ClappiaUpdateStatusValidator.validate_email`. -/
def ClappiaUpdateStatusValidator.validate_email (email : String) : Bool × String :=
  if pyStrip email == "" then (false, "Email is required and cannot be empty")
  else if !emailDollarMatch (pyStrip email) then (false, "Invalid email format")
  else (true, "")

/-- Embedded from src/tools/update_submission_status.py lines 83-99,
`ClappiaUpdateStatusClient._handle_response`: total, the body only passes
through `json.dumps`. -/
def ClappiaUpdateStatusClient.handle_response (r : HttpResponse) : Except PyExc String :=
  if r.status == 200 then
    match r.json with
    | some j => Except.ok ("Submission status updated successfully:\n" ++ dumps j)
    | none => Except.ok ("Submission status updated successfully: " ++ r.text)
  else if r.status == 400 || r.status == 401 || r.status == 403 || r.status == 404 then
    match r.json with
    | some j => Except.ok ("API Error (" ++ toString r.status ++ "): " ++ dumps j)
    | none => Except.ok ("API Error (" ++ toString r.status ++ "): " ++ r.text)
  else
    Except.ok ("Unexpected API response (" ++ toString r.status ++ "): " ++ r.text)

end UpdateSubmissionStatus

namespace UpdateSubmissionOwners

/-- Embedded from src/tools/update_submission_owners.py lines 22-30,
`ClappiaUpdateOwnersValidator.validate_app_id`. -/
def ClappiaUpdateOwnersValidator.validate_app_id (app_id : String) : Bool × String :=
  if pyStrip app_id == "" then (false, "App ID is required and cannot be empty")
  else if !upperAlnumFullMatch (pyStrip app_id) then
    (false, "App ID must contain only uppercase letters and numbers")
  else (true, "")

/-- Embedded from src/tools/update_submission_owners.py lines 32-40,
`ClappiaUpdateOwnersValidator.validate_workplace_id`. -/
def ClappiaUpdateOwnersValidator.validate_workplace_id (workplace_id : String) : Bool × String :=
  if pyStrip workplace_id == "" then (false, "Workplace ID is required and cannot be empty")
  else if !upperAlnumFullMatch (pyStrip workplace_id) then
    (false, "Workplace ID must contain only uppercase letters and numbers")
  else (true, "")

/-- Embedded from src/tools/update_submission_owners.py lines 49-58,
`ClappiaUpdateOwnersValidator.validate_email`. -/
def ClappiaUpdateOwnersValidator.validate_email (email : String) : Bool × String :=
  if pyStrip email == "" then (false, "Email is required and cannot be empty")
  else if !emailDollarMatch (pyStrip email) then (false, "Invalid email format")
  else (true, "")

/-- Embedded from src/tools/update_submission_owners.py lines 95-111,
`ClappiaUpdateOwnersClient._handle_response`: total, the body only passes
through `json.dumps`. -/
def ClappiaUpdateOwnersClient.handle_response (r : HttpResponse) : Except PyExc String :=
  if r.status == 200 then
    match r.json with
    | some j => Except.ok ("Submission owners updated successfully:\n" ++ dumps j)
    | none => Except.ok ("Submission owners updated successfully: " ++ r.text)
  else if r.status == 400 || r.status == 401 || r.status == 403 || r.status == 404 then
    match r.json with
    | some j => Except.ok ("API Error (" ++ toString r.status ++ "): " ++ dumps j)
    | none => Except.ok ("API Error (" ++ toString r.status ++ "): " ++ r.text)
  else
    Except.ok ("Unexpected API response (" ++ toString r.status ++ "): " ++ r.text)

end UpdateSubmissionOwners

namespace AddField

/-- Embedded from src/tools/add_field.py lines 149-171,
`ClappiaAddFieldClient._handle_response`: the 200 branch guards with
`isinstance(response_data, dict)` before calling `.get`, so — unlike the
listing and app-definition classifiers — it is total; a JSON 200 body that
is not a dict is serialized with `json.dumps`, not returned as raw text. -/
def ClappiaAddFieldClient.handle_response (r : HttpResponse) : Except PyExc String :=
  if r.status == 200 then
    match r.json with
    | some j =>
      match j with
      | JValue.jobj fs =>
        Except.ok ("Field added successfully:\nField Name: "
          ++ pyStr ((dictGet fs "fieldName").getD (JValue.jstr "Unknown"))
          ++ "\nFull Response: " ++ dumps (JValue.jobj fs))
      | _ => Except.ok ("Field added successfully: " ++ dumps j)
    | none => Except.ok ("Field added successfully: " ++ r.text)
  else if r.status == 400 || r.status == 401 || r.status == 403 || r.status == 404 then
    match r.json with
    | some j => Except.ok ("API Error (" ++ toString r.status ++ "): " ++ dumps j)
    | none => Except.ok ("API Error (" ++ toString r.status ++ "): " ++ r.text)
  else
    Except.ok ("Unexpected API response (" ++ toString r.status ++ "): " ++ r.text)

end AddField

namespace UpdateField

/-- Embedded from src/tools/update_field.py lines 144-166,
`ClappiaUpdateFieldClient._handle_response`: isinstance-guarded like the
add-field classifier, hence total. -/
def ClappiaUpdateFieldClient.handle_response (r : HttpResponse) : Except PyExc String :=
  if r.status == 200 then
    match r.json with
    | some j =>
      match j with
      | JValue.jobj fs =>
        Except.ok ("Field updated successfully:\nField Name: "
          ++ pyStr ((dictGet fs "fieldName").getD (JValue.jstr "Unknown"))
          ++ "\nFull Response: " ++ dumps (JValue.jobj fs))
      | _ => Except.ok ("Field updated successfully: " ++ dumps j)
    | none => Except.ok ("Field updated successfully: " ++ r.text)
  else if r.status == 400 || r.status == 401 || r.status == 403 || r.status == 404 then
    match r.json with
    | some j => Except.ok ("API Error (" ++ toString r.status ++ "): " ++ dumps j)
    | none => Except.ok ("API Error (" ++ toString r.status ++ "): " ++ r.text)
  else
    Except.ok ("Unexpected API response (" ++ toString r.status ++ "): " ++ r.text)

end UpdateField

namespace GetSubmissionsAggregation

/-- Embedded from src/tools/get_submissions_aggregation.py lines 162-164,
the aggregation module's own `ClappiaValidator.validate_email`:
`bool(re.match(EMAIL_PATTERN, email))` with no stripping, identical in form
to the listing module's validator. -/
def ClappiaValidator.validate_email (email : String) : Bool :=
  emailDollarMatch email

/-- Embedded from src/tools/get_submissions_aggregation.py lines 193-209,
`ClappiaAggregationAPIClient._handle_response`: the 200 body only passes
through `json.dumps`, so it is total. -/
def ClappiaAggregationAPIClient.handle_response (r : HttpResponse) : Except PyExc String :=
  if r.status == 200 then
    match r.json with
    | some j => Except.ok ("Successfully retrieved aggregated data: " ++ dumps j)
    | none => Except.ok ("Success but invalid JSON response: " ++ r.text)
  else if r.status == 400 || r.status == 401 || r.status == 403 || r.status == 404 then
    match r.json with
    | some j => Except.ok ("API Error (" ++ toString r.status ++ "): " ++ dumps j)
    | none => Except.ok ("API Error (" ++ toString r.status ++ "): " ++ r.text)
  else
    Except.ok ("Unexpected API response (" ++ toString r.status ++ "): " ++ r.text)

end GetSubmissionsAggregation

theorem hasKey_append (l1 l2 : List (String × JValue)) (k : String) :
    hasKey (l1 ++ l2) k = (hasKey l1 k || hasKey l2 k) := by
  simp [hasKey, List.any_append]

theorem hasKey_cons (p : String × JValue) (l : List (String × JValue)) (k : String) :
    hasKey (p :: l) k = (p.1 == k || hasKey l k) := by
  simp [hasKey]

theorem hasKey_nil (k : String) : hasKey [] k = false := rfl

theorem hasKey_optJ (k k' : String) (v : Option JValue) :
    hasKey (optJ k' v) k = (k' == k && v.isSome) := by
  cases v <;> simp [optJ, hasKey]

theorem hasKey_optTruthyStr (k k' : String) (v : Option String) :
    hasKey (optTruthyStr k' v) k = (k' == k && !(v.getD "" == "")) := by
  cases v with
  | none => simp [optTruthyStr, hasKey]
  | some s =>
    by_cases h : s == "" <;> simp [optTruthyStr, hasKey, h]

theorem hasKey_optTruthyList (k k' : String) (v : Option (List String)) :
    hasKey (optTruthyList k' v) k = (k' == k && !(v.getD []).isEmpty) := by
  cases v with
  | none => simp [optTruthyList, hasKey]
  | some l =>
    by_cases h : l.isEmpty <;> simp [optTruthyList, hasKey, h]

theorem hasKey_optTruthyInt (k k' : String) (v : Option Int) :
    hasKey (optTruthyInt k' v) k = (k' == k && !(v.getD 0 == 0)) := by
  cases v with
  | none => simp [optTruthyInt, hasKey]
  | some n =>
    by_cases h : n == 0 <;> simp [optTruthyInt, hasKey, h]

theorem lookupKey_append (l1 l2 : List (String × JValue)) (k : String) :
    lookupKey (l1 ++ l2) k = (lookupKey l1 k).or (lookupKey l2 k) := by
  cases h : List.find? (fun p => p.1 == k) l1 <;>
    simp [lookupKey, List.find?_append, h]

theorem lookupKey_optJ (k k' : String) (v : Option JValue) :
    lookupKey (optJ k' v) k = if k' == k then v else none := by
  cases v with
  | none => simp [optJ, lookupKey]
  | some j => by_cases h : k' == k <;> simp [optJ, lookupKey, List.find?, h]

theorem lookupKey_cons (p : String × JValue) (l : List (String × JValue)) (k : String) :
    lookupKey (p :: l) k = if p.1 == k then some p.2 else lookupKey l k := by
  by_cases h : p.1 == k <;> simp [lookupKey, List.find?, h]

/-- Claim C7: for every string s, all twelve identifier validators of the
repository (validate_app_id of the add-field, update-field,
create-submission, app-definition, edit-submission, status-update and
owners-update operations, and validate_workplace_id of the five of those
that define it) accept s exactly when s is non-empty after stripping and
the stripped string fully matches the anchored pattern of uppercase letters
and digits; otherwise they return false with a field-identifying message
(one of the two fixed messages naming the field). -/
theorem spec_C7 (s : String) :
    ((AddField.ClappiaAddFieldValidator.validate_app_id s).1
      = (!(pyStrip s == "") && upperAlnumFullMatch (pyStrip s))) ∧
    ((AddField.ClappiaAddFieldValidator.validate_workplace_id s).1
      = (!(pyStrip s == "") && upperAlnumFullMatch (pyStrip s))) ∧
    ((UpdateField.ClappiaUpdateFieldValidator.validate_app_id s).1
      = (!(pyStrip s == "") && upperAlnumFullMatch (pyStrip s))) ∧
    ((UpdateField.ClappiaUpdateFieldValidator.validate_workplace_id s).1
      = (!(pyStrip s == "") && upperAlnumFullMatch (pyStrip s))) ∧
    ((CreateSubmission.ClappiaSubmissionValidator.validate_app_id s).1
      = (!(pyStrip s == "") && upperAlnumFullMatch (pyStrip s))) ∧
    ((CreateSubmission.ClappiaSubmissionValidator.validate_workplace_id s).1
      = (!(pyStrip s == "") && upperAlnumFullMatch (pyStrip s))) ∧
    ((AddField.ClappiaAddFieldValidator.validate_app_id s).1 = false →
      (AddField.ClappiaAddFieldValidator.validate_app_id s).2
        = "App ID is required and cannot be empty" ∨
      (AddField.ClappiaAddFieldValidator.validate_app_id s).2
        = "App ID must contain only uppercase letters and numbers") ∧
    ((AddField.ClappiaAddFieldValidator.validate_workplace_id s).1 = false →
      (AddField.ClappiaAddFieldValidator.validate_workplace_id s).2
        = "Workplace ID is required and cannot be empty" ∨
      (AddField.ClappiaAddFieldValidator.validate_workplace_id s).2
        = "Workplace ID must contain only uppercase letters and numbers") ∧
    ((GetDefinition.ClappiaAppDefinitionValidator.validate_app_id s).1
      = (!(pyStrip s == "") && upperAlnumFullMatch (pyStrip s))) ∧
    ((GetDefinition.ClappiaAppDefinitionValidator.validate_workplace_id s).1
      = (!(pyStrip s == "") && upperAlnumFullMatch (pyStrip s))) ∧
    ((EditSubmission.ClappiaEditSubmissionValidator.validate_app_id s).1
      = (!(pyStrip s == "") && upperAlnumFullMatch (pyStrip s))) ∧
    ((UpdateSubmissionStatus.ClappiaUpdateStatusValidator.validate_app_id s).1
      = (!(pyStrip s == "") && upperAlnumFullMatch (pyStrip s))) ∧
    ((UpdateSubmissionOwners.ClappiaUpdateOwnersValidator.validate_app_id s).1
      = (!(pyStrip s == "") && upperAlnumFullMatch (pyStrip s))) ∧
    ((UpdateSubmissionOwners.ClappiaUpdateOwnersValidator.validate_workplace_id s).1
      = (!(pyStrip s == "") && upperAlnumFullMatch (pyStrip s))) := by
  unfold AddField.ClappiaAddFieldValidator.validate_app_id
    AddField.ClappiaAddFieldValidator.validate_workplace_id
    UpdateField.ClappiaUpdateFieldValidator.validate_app_id
    UpdateField.ClappiaUpdateFieldValidator.validate_workplace_id
    CreateSubmission.ClappiaSubmissionValidator.validate_app_id
    CreateSubmission.ClappiaSubmissionValidator.validate_workplace_id
    GetDefinition.ClappiaAppDefinitionValidator.validate_app_id
    GetDefinition.ClappiaAppDefinitionValidator.validate_workplace_id
    EditSubmission.ClappiaEditSubmissionValidator.validate_app_id
    UpdateSubmissionStatus.ClappiaUpdateStatusValidator.validate_app_id
    UpdateSubmissionOwners.ClappiaUpdateOwnersValidator.validate_app_id
    UpdateSubmissionOwners.ClappiaUpdateOwnersValidator.validate_workplace_id
  by_cases h1 : pyStrip s == "" <;> by_cases h2 : upperAlnumFullMatch (pyStrip s) <;>
    simp [h1, h2]

/-- Witness for C7 at the concrete rejected identifier "mfx093412": the
add-field validator rejects it with one of the two field-naming messages. -/
theorem spec_C7_witness :
    (AddField.ClappiaAddFieldValidator.validate_app_id "mfx093412").2
      = "App ID is required and cannot be empty" ∨
    (AddField.ClappiaAddFieldValidator.validate_app_id "mfx093412").2
      = "App ID must contain only uppercase letters and numbers" :=
  (spec_C7 "mfx093412").2.2.2.2.2.2.1 (by decide)

/-- Claim C8, amended: the facade gate and the seven tuple-returning email
validators of the add-field, update-field, create-app, create-submission,
edit-submission, status-update and owners-update operations all accept e
exactly when e is non-blank after stripping and the stripped string matches
the source email pattern, whose domain class is [a-zA-Z0-9.-] (no
underscore, unlike the \w of the claim's pattern); the two boolean
validators of the submissions-listing and aggregation modules apply no
stripping and match the raw string, so they alone reject emails carrying
surrounding whitespace. All of them accept "a@b.co" and reject "a@b" and a
whitespace-only string. -/
theorem spec_C8 (s : String) :
    ((ClappiaMcp.validate_required_params s).1
      = (!(pyStrip s == "") && emailDollarMatch (pyStrip s))) ∧
    ((AddField.ClappiaAddFieldValidator.validate_email s).1
      = (!(pyStrip s == "") && emailDollarMatch (pyStrip s))) ∧
    ((UpdateField.ClappiaUpdateFieldValidator.validate_email s).1
      = (!(pyStrip s == "") && emailDollarMatch (pyStrip s))) ∧
    ((CreateApp.ClappiaCreateAppValidator.validate_email s).1
      = (!(pyStrip s == "") && emailDollarMatch (pyStrip s))) ∧
    ((CreateSubmission.ClappiaSubmissionValidator.validate_email s).1
      = (!(pyStrip s == "") && emailDollarMatch (pyStrip s))) ∧
    (GetSubmissions.ClappiaValidator.validate_email s = emailDollarMatch s) ∧
    ((ClappiaMcp.validate_required_params "a@b.co").1 = true ∧
      (AddField.ClappiaAddFieldValidator.validate_email "a@b.co").1 = true ∧
      GetSubmissions.ClappiaValidator.validate_email "a@b.co" = true) ∧
    ((ClappiaMcp.validate_required_params "a@b").1 = false ∧
      (AddField.ClappiaAddFieldValidator.validate_email "a@b").1 = false ∧
      GetSubmissions.ClappiaValidator.validate_email "a@b" = false) ∧
    ((ClappiaMcp.validate_required_params "   ").1 = false ∧
      (AddField.ClappiaAddFieldValidator.validate_email "   ").1 = false ∧
      GetSubmissions.ClappiaValidator.validate_email "   " = false) ∧
    ((EditSubmission.ClappiaEditSubmissionValidator.validate_email s).1
      = (!(pyStrip s == "") && emailDollarMatch (pyStrip s))) ∧
    ((UpdateSubmissionStatus.ClappiaUpdateStatusValidator.validate_email s).1
      = (!(pyStrip s == "") && emailDollarMatch (pyStrip s))) ∧
    ((UpdateSubmissionOwners.ClappiaUpdateOwnersValidator.validate_email s).1
      = (!(pyStrip s == "") && emailDollarMatch (pyStrip s))) ∧
    (GetSubmissionsAggregation.ClappiaValidator.validate_email s
      = emailDollarMatch s) := by
  unfold ClappiaMcp.validate_required_params
    AddField.ClappiaAddFieldValidator.validate_email
    UpdateField.ClappiaUpdateFieldValidator.validate_email
    CreateApp.ClappiaCreateAppValidator.validate_email
    CreateSubmission.ClappiaSubmissionValidator.validate_email
    GetSubmissions.ClappiaValidator.validate_email
    EditSubmission.ClappiaEditSubmissionValidator.validate_email
    UpdateSubmissionStatus.ClappiaUpdateStatusValidator.validate_email
    UpdateSubmissionOwners.ClappiaUpdateOwnersValidator.validate_email
    GetSubmissionsAggregation.ClappiaValidator.validate_email
  by_cases h1 : pyStrip s == "" <;> by_cases h2 : emailDollarMatch (pyStrip s) <;>
    simp [h1, h2] <;> decide

/-- Counterexample to claim C8 as stated: "a@b_c.co" matches the claim's
written pattern (underscore is in \w, hence allowed in the domain) yet the
facade gate and the inner validators reject it; and " a@b.co" matches the
claim's trim-then-match rule yet the listing and aggregation validators,
which never strip, reject it while the tuple validators accept it — so the
validators are not identical across operations either. -/
theorem spec_C8_cx :
    specEmailMatch (pyStrip "a@b_c.co") = true ∧
    (ClappiaMcp.validate_required_params "a@b_c.co").1 = false ∧
    (EditSubmission.ClappiaEditSubmissionValidator.validate_email "a@b_c.co").1 = false ∧
    specEmailMatch (pyStrip " a@b.co") = true ∧
    GetSubmissions.ClappiaValidator.validate_email " a@b.co" = false ∧
    GetSubmissionsAggregation.ClappiaValidator.validate_email " a@b.co" = false ∧
    (EditSubmission.ClappiaEditSubmissionValidator.validate_email " a@b.co").1 = true := by
  decide

/-- Claim C1 (evaluating the code at its failing inputs): with a valid
requester email, each of the add-field, update-field and
submissions-aggregation facades reaches an inner call that omits the
callee's required `workplace_id` parameter, so whatever string the inner
operation would have produced, Python raises TypeError and the exception
escapes the facade instead of a string being returned. -/
theorem spec_C1 (inner : String) :
    ClappiaMcp.add_field_to_clappia_app "a@b.co" [] inner
      = ClappiaMcp.ToolResult.exc
        "TypeError: add_field_to_app() missing 1 required positional argument: 'workplace_id'" ∧
    ClappiaMcp.add_field_to_clappia_app "a@b.co" ClappiaMcp.addFieldFacadeOptional inner
      = ClappiaMcp.ToolResult.exc
        "TypeError: add_field_to_app() missing 1 required positional argument: 'workplace_id'" ∧
    ClappiaMcp.update_field_in_clappia_app "a@b.co" [] inner
      = ClappiaMcp.ToolResult.exc
        "TypeError: update_field_in_app() missing 1 required positional argument: 'workplace_id'" ∧
    ClappiaMcp.update_field_in_clappia_app "a@b.co" ClappiaMcp.updateFieldFacadeOptional inner
      = ClappiaMcp.ToolResult.exc
        "TypeError: update_field_in_app() missing 1 required positional argument: 'workplace_id'" ∧
    ClappiaMcp.get_clappia_submissions_aggregation "a@b.co" inner
      = ClappiaMcp.ToolResult.exc
        "TypeError: get_app_submissions_aggregation() missing 1 required positional argument: 'workplace_id'" ∧
    (∀ ks : List String,
      (∀ k ∈ ks, ClappiaMcp.addFieldFacadeOptional.contains k = true) →
      ClappiaMcp.pythonCallBinds ClappiaMcp.addFieldToAppRequired
        (ClappiaMcp.addFieldFacadeFixed ++ ks) = false) := by
  refine ⟨rfl, rfl, rfl, rfl, rfl, ?_⟩
  intro ks h
  simp only [ClappiaMcp.pythonCallBinds, List.all_eq_false]
  refine ⟨"workplace_id", by decide, ?_⟩
  intro hc
  have hm : "workplace_id" ∈ ClappiaMcp.addFieldFacadeFixed ++ ks := by simpa using hc
  rcases List.mem_append.mp hm with hc1 | hc2
  · simp [ClappiaMcp.addFieldFacadeFixed] at hc1
  · have hk := h _ hc2
    simp [ClappiaMcp.addFieldFacadeOptional] at hk

/-- Witness for the universally-quantified part of C1: with the kwargs keys
of a typical call, the binding check fails concretely. -/
theorem spec_C1_witness :
    ClappiaMcp.pythonCallBinds ClappiaMcp.addFieldToAppRequired
      (ClappiaMcp.addFieldFacadeFixed ++ ["required", "options"]) = false :=
  (spec_C1 "").2.2.2.2.2 ["required", "options"] (by decide)

/-- Claim C2, amended: over statuses drawn from 200, 201, 400, 401, 403,
404, 500 and bodies that are valid or invalid JSON, (a) seven of the ten
response classifiers — submission-creation (where both 200 and 201 are
classified as success), add-field, update-field, aggregation,
edit-submission, status-update and owners-update — are total: every pair
yields exactly one of the five documented string shapes; (b) the remaining
three — submissions-listing, app-creation and app-definition — also realize
the five shapes, but their 200-with-valid-JSON branch requires the parsed
body to be a JSON object (for the listing classifier, one whose
"submissions" member, when present, has a Python length; for the
app-definition classifier, one whose pageIds, sectionIds and
fieldDefinitions members have Python lengths and whose metadata member,
when present, is an object); with a 200 body outside those conditions they
raise instead of returning. -/
theorem spec_C2 :
    (∀ r : HttpResponse, ∃ s,
      CreateSubmission.ClappiaSubmissionClient.handle_response r = Except.ok s) ∧
    (∀ (j : JValue) (t : String),
      CreateSubmission.ClappiaSubmissionClient.handle_response ⟨200, some j, t⟩
        = Except.ok ("Submission created successfully:\n" ++ dumps j)) ∧
    (∀ (j : JValue) (t : String),
      CreateSubmission.ClappiaSubmissionClient.handle_response ⟨201, some j, t⟩
        = Except.ok ("Submission created successfully:\n" ++ dumps j)) ∧
    (∀ (fs : List (String × JValue)) (t : String) (n : Nat),
      pyLen ((dictGet fs "submissions").getD (JValue.jarr [])) = some n →
      GetSubmissions.ClappiaAPIClient.handle_response ⟨200, some (JValue.jobj fs), t⟩
        = Except.ok ("Successfully retrieved " ++ toString n ++ " submissions: "
            ++ dumps (JValue.jobj fs))) ∧
    (∀ t : String,
      GetSubmissions.ClappiaAPIClient.handle_response ⟨200, none, t⟩
        = Except.ok ("Success but invalid JSON response: " ++ t)) ∧
    (∀ st : Nat, (st == 400 || st == 401 || st == 403 || st == 404) = true →
      ∀ (j : JValue) (t : String),
      GetSubmissions.ClappiaAPIClient.handle_response ⟨st, some j, t⟩
        = Except.ok ("API Error (" ++ toString st ++ "): " ++ dumps j)) ∧
    (∀ st : Nat, (st == 400 || st == 401 || st == 403 || st == 404) = true →
      ∀ t : String,
      GetSubmissions.ClappiaAPIClient.handle_response ⟨st, none, t⟩
        = Except.ok ("API Error (" ++ toString st ++ "): " ++ t)) ∧
    (∀ (b : Option JValue) (t : String),
      GetSubmissions.ClappiaAPIClient.handle_response ⟨500, b, t⟩
        = Except.ok ("Unexpected API response (500): " ++ t)) ∧
    (∀ (b : Option JValue) (t : String),
      GetSubmissions.ClappiaAPIClient.handle_response ⟨201, b, t⟩
        = Except.ok ("Unexpected API response (201): " ++ t)) ∧
    (∀ (fs : List (String × JValue)) (t : String),
      CreateApp.ClappiaCreateAppClient.handle_response ⟨200, some (JValue.jobj fs), t⟩
        = Except.ok ("App created successfully:\nApp ID: " ++ pyStrOpt (dictGet fs "appId")
            ++ "\nApp URL: " ++ pyStrOpt (dictGet fs "appUrl")
            ++ "\nFull Response: " ++ dumps (JValue.jobj fs))) ∧
    (∀ t : String,
      CreateApp.ClappiaCreateAppClient.handle_response ⟨200, none, t⟩
        = Except.ok ("App created successfully: " ++ t)) ∧
    (∀ (b : Option JValue) (t : String),
      CreateApp.ClappiaCreateAppClient.handle_response ⟨201, b, t⟩
        = Except.ok ("Unexpected API response (201): " ++ t)) ∧
    (∀ r : HttpResponse, ∃ s,
      AddField.ClappiaAddFieldClient.handle_response r = Except.ok s) ∧
    (∀ (fs : List (String × JValue)) (t : String),
      AddField.ClappiaAddFieldClient.handle_response ⟨200, some (JValue.jobj fs), t⟩
        = Except.ok ("Field added successfully:\nField Name: "
            ++ pyStr ((dictGet fs "fieldName").getD (JValue.jstr "Unknown"))
            ++ "\nFull Response: " ++ dumps (JValue.jobj fs))) ∧
    (∀ r : HttpResponse, ∃ s,
      UpdateField.ClappiaUpdateFieldClient.handle_response r = Except.ok s) ∧
    (∀ r : HttpResponse, ∃ s,
      GetSubmissionsAggregation.ClappiaAggregationAPIClient.handle_response r
        = Except.ok s) ∧
    (∀ (j : JValue) (t : String),
      GetSubmissionsAggregation.ClappiaAggregationAPIClient.handle_response
          ⟨200, some j, t⟩
        = Except.ok ("Successfully retrieved aggregated data: " ++ dumps j)) ∧
    (∀ r : HttpResponse, ∃ s,
      EditSubmission.ClappiaEditSubmissionClient.handle_response r = Except.ok s) ∧
    (∀ r : HttpResponse, ∃ s,
      UpdateSubmissionStatus.ClappiaUpdateStatusClient.handle_response r = Except.ok s) ∧
    (∀ r : HttpResponse, ∃ s,
      UpdateSubmissionOwners.ClappiaUpdateOwnersClient.handle_response r = Except.ok s) ∧
    (∀ (fs ms : List (String × JValue)) (t : String) (p q c : Nat),
      pyLen ((dictGet fs "pageIds").getD (JValue.jarr [])) = some p →
      pyLen ((dictGet fs "sectionIds").getD (JValue.jarr [])) = some q →
      pyLen ((dictGet fs "fieldDefinitions").getD (JValue.jobj [])) = some c →
      (dictGet fs "metadata").getD (JValue.jobj []) = JValue.jobj ms →
      GetDefinition.ClappiaAppDefinitionClient.handle_response
          ⟨200, some (JValue.jobj fs), t⟩
        = Except.ok ("Successfully retrieved app definition:\n\nSUMMARY:\n"
            ++ dumps (JValue.jobj
                [("appId", (dictGet fs "appId").getD JValue.jnull),
                 ("version", (dictGet fs "version").getD JValue.jnull),
                 ("state", (dictGet fs "state").getD JValue.jnull),
                 ("pageCount", JValue.jnum p),
                 ("sectionCount", JValue.jnum q),
                 ("fieldCount", JValue.jnum c),
                 ("appName", (dictGet ms "sectionName").getD (JValue.jstr "Unknown")),
                 ("description", (dictGet ms "description").getD (JValue.jstr ""))])
            ++ "\n\nFULL DEFINITION:\n" ++ dumps (JValue.jobj fs))) ∧
    (∀ t : String,
      GetDefinition.ClappiaAppDefinitionClient.handle_response ⟨200, none, t⟩
        = Except.ok ("Success but invalid JSON response: " ++ t)) ∧
    (∀ st : Nat, (st == 400 || st == 401 || st == 403 || st == 404) = true →
      ∀ (j : JValue) (t : String),
      GetDefinition.ClappiaAppDefinitionClient.handle_response ⟨st, some j, t⟩
        = Except.ok ("API Error (" ++ toString st ++ "): " ++ dumps j)) ∧
    (∀ st : Nat, (st == 400 || st == 401 || st == 403 || st == 404) = true →
      ∀ t : String,
      GetDefinition.ClappiaAppDefinitionClient.handle_response ⟨st, none, t⟩
        = Except.ok ("API Error (" ++ toString st ++ "): " ++ t)) ∧
    (∀ (b : Option JValue) (t : String),
      GetDefinition.ClappiaAppDefinitionClient.handle_response ⟨500, b, t⟩
        = Except.ok ("Unexpected API response (500): " ++ t)) ∧
    (∀ (b : Option JValue) (t : String),
      GetDefinition.ClappiaAppDefinitionClient.handle_response ⟨201, b, t⟩
        = Except.ok ("Unexpected API response (201): " ++ t)) := by
  refine ⟨?_, fun j t => rfl, fun j t => rfl, ?_, fun t => rfl, ?_, ?_,
    fun b t => by simp [GetSubmissions.ClappiaAPIClient.handle_response]; rfl,
    fun b t => by simp [GetSubmissions.ClappiaAPIClient.handle_response]; rfl,
    fun fs t => rfl, fun t => rfl,
    fun b t => by simp [CreateApp.ClappiaCreateAppClient.handle_response]; rfl,
    ?_, fun fs t => rfl, ?_, ?_, fun j t => rfl, ?_, ?_, ?_, ?_,
    fun t => by simp [GetDefinition.ClappiaAppDefinitionClient.handle_response],
    ?_, ?_,
    fun b t => by simp [GetDefinition.ClappiaAppDefinitionClient.handle_response]; rfl,
    fun b t => by simp [GetDefinition.ClappiaAppDefinitionClient.handle_response]; rfl⟩
  · intro r
    unfold CreateSubmission.ClappiaSubmissionClient.handle_response
    by_cases h1 : (r.status == 200 || r.status == 201) = true
    · rw [if_pos h1]
      cases r.json with
      | some j => exact ⟨_, rfl⟩
      | none => exact ⟨_, rfl⟩
    · rw [if_neg (by simpa using h1)]
      by_cases h2 : (r.status == 400 || r.status == 401 || r.status == 403
          || r.status == 404) = true
      · rw [if_pos h2]
        cases r.json with
        | some j => exact ⟨_, rfl⟩
        | none => exact ⟨_, rfl⟩
      · rw [if_neg (by simpa using h2)]
        exact ⟨_, rfl⟩
  · intro fs t n h
    simp [GetSubmissions.ClappiaAPIClient.handle_response, h]
  · intro st hst j t
    have hd := hst
    simp only [Bool.or_eq_true, beq_iff_eq] at hd
    rcases hd with ((rfl | rfl) | rfl) | rfl <;> rfl
  · intro st hst t
    have hd := hst
    simp only [Bool.or_eq_true, beq_iff_eq] at hd
    rcases hd with ((rfl | rfl) | rfl) | rfl <;> rfl
  · intro r
    unfold AddField.ClappiaAddFieldClient.handle_response
    by_cases h1 : (r.status == 200) = true
    · rw [if_pos h1]
      cases r.json with
      | some j => cases j <;> exact ⟨_, rfl⟩
      | none => exact ⟨_, rfl⟩
    · rw [if_neg h1]
      by_cases h2 : (r.status == 400 || r.status == 401 || r.status == 403
          || r.status == 404) = true
      · rw [if_pos h2]
        cases r.json with
        | some j => exact ⟨_, rfl⟩
        | none => exact ⟨_, rfl⟩
      · rw [if_neg h2]; exact ⟨_, rfl⟩
  · intro r
    unfold UpdateField.ClappiaUpdateFieldClient.handle_response
    by_cases h1 : (r.status == 200) = true
    · rw [if_pos h1]
      cases r.json with
      | some j => cases j <;> exact ⟨_, rfl⟩
      | none => exact ⟨_, rfl⟩
    · rw [if_neg h1]
      by_cases h2 : (r.status == 400 || r.status == 401 || r.status == 403
          || r.status == 404) = true
      · rw [if_pos h2]
        cases r.json with
        | some j => exact ⟨_, rfl⟩
        | none => exact ⟨_, rfl⟩
      · rw [if_neg h2]; exact ⟨_, rfl⟩
  · intro r
    unfold GetSubmissionsAggregation.ClappiaAggregationAPIClient.handle_response
    by_cases h1 : (r.status == 200) = true
    · rw [if_pos h1]
      cases r.json with
      | some j => exact ⟨_, rfl⟩
      | none => exact ⟨_, rfl⟩
    · rw [if_neg h1]
      by_cases h2 : (r.status == 400 || r.status == 401 || r.status == 403
          || r.status == 404) = true
      · rw [if_pos h2]
        cases r.json with
        | some j => exact ⟨_, rfl⟩
        | none => exact ⟨_, rfl⟩
      · rw [if_neg h2]; exact ⟨_, rfl⟩
  · intro r
    unfold EditSubmission.ClappiaEditSubmissionClient.handle_response
    by_cases h1 : (r.status == 200) = true
    · rw [if_pos h1]
      cases r.json with
      | some j => exact ⟨_, rfl⟩
      | none => exact ⟨_, rfl⟩
    · rw [if_neg h1]
      by_cases h2 : (r.status == 400 || r.status == 401 || r.status == 403
          || r.status == 404) = true
      · rw [if_pos h2]
        cases r.json with
        | some j => exact ⟨_, rfl⟩
        | none => exact ⟨_, rfl⟩
      · rw [if_neg h2]; exact ⟨_, rfl⟩
  · intro r
    unfold UpdateSubmissionStatus.ClappiaUpdateStatusClient.handle_response
    by_cases h1 : (r.status == 200) = true
    · rw [if_pos h1]
      cases r.json with
      | some j => exact ⟨_, rfl⟩
      | none => exact ⟨_, rfl⟩
    · rw [if_neg h1]
      by_cases h2 : (r.status == 400 || r.status == 401 || r.status == 403
          || r.status == 404) = true
      · rw [if_pos h2]
        cases r.json with
        | some j => exact ⟨_, rfl⟩
        | none => exact ⟨_, rfl⟩
      · rw [if_neg h2]; exact ⟨_, rfl⟩
  · intro r
    unfold UpdateSubmissionOwners.ClappiaUpdateOwnersClient.handle_response
    by_cases h1 : (r.status == 200) = true
    · rw [if_pos h1]
      cases r.json with
      | some j => exact ⟨_, rfl⟩
      | none => exact ⟨_, rfl⟩
    · rw [if_neg h1]
      by_cases h2 : (r.status == 400 || r.status == 401 || r.status == 403
          || r.status == 404) = true
      · rw [if_pos h2]
        cases r.json with
        | some j => exact ⟨_, rfl⟩
        | none => exact ⟨_, rfl⟩
      · rw [if_neg h2]; exact ⟨_, rfl⟩
  · intro fs ms t p q c h1 h2 h3 h4
    simp [GetDefinition.ClappiaAppDefinitionClient.handle_response, h1, h2, h3, h4]
  · intro st hst j t
    have hd := hst
    simp only [Bool.or_eq_true, beq_iff_eq] at hd
    rcases hd with ((rfl | rfl) | rfl) | rfl <;> rfl
  · intro st hst t
    have hd := hst
    simp only [Bool.or_eq_true, beq_iff_eq] at hd
    rcases hd with ((rfl | rfl) | rfl) | rfl <;> rfl

/-- Witness for C2 at concrete inputs: the creation classifier on a 201
response with a JSON object body, and the listing and app-definition
classifiers on a 200 response whose body is an empty JSON object. -/
theorem spec_C2_witness :
    CreateSubmission.ClappiaSubmissionClient.handle_response
        ⟨201, some (JValue.jobj []), "\x7b\x7d"⟩
      = Except.ok ("Submission created successfully:\n" ++ dumps (JValue.jobj [])) ∧
    GetSubmissions.ClappiaAPIClient.handle_response ⟨200, some (JValue.jobj []), "\x7b\x7d"⟩
      = Except.ok ("Successfully retrieved " ++ toString 0 ++ " submissions: "
          ++ dumps (JValue.jobj [])) ∧
    GetDefinition.ClappiaAppDefinitionClient.handle_response
        ⟨200, some (JValue.jobj []), "\x7b\x7d"⟩
      = Except.ok ("Successfully retrieved app definition:\n\nSUMMARY:\n"
          ++ dumps (JValue.jobj
              [("appId", (dictGet [] "appId").getD JValue.jnull),
               ("version", (dictGet [] "version").getD JValue.jnull),
               ("state", (dictGet [] "state").getD JValue.jnull),
               ("pageCount", JValue.jnum 0),
               ("sectionCount", JValue.jnum 0),
               ("fieldCount", JValue.jnum 0),
               ("appName", (dictGet [] "sectionName").getD (JValue.jstr "Unknown")),
               ("description", (dictGet [] "description").getD (JValue.jstr ""))])
          ++ "\n\nFULL DEFINITION:\n" ++ dumps (JValue.jobj [])) := by
  obtain ⟨-, -, hsub201, hlist, -, -, -, -, -, -, -, -, -, -, -, -, -, -, -, -,
    hdef, -, -, -, -, -⟩ := spec_C2
  exact ⟨hsub201 (JValue.jobj []) "\x7b\x7d", hlist [] "\x7b\x7d" 0 rfl,
    hdef [] [] "\x7b\x7d" 0 0 0 rfl rfl rfl rfl⟩

/-- Counterexample to claim C2 as stated: on status 200 with the valid JSON
body "[]" — a JSON array, not an object — the listing, app-creation and
app-definition classifiers raise AttributeError (the code calls .get on the
parsed value) instead of producing one of the five documented strings; on
the same status, a JSON object whose "submissions" member is the number 5
makes the listing classifier raise TypeError at len, an object whose
"pageIds" member is a number makes the app-definition classifier raise
TypeError, and an object whose "metadata" member is a string makes it raise
AttributeError at the chained .get. -/
theorem spec_C2_cx :
    GetSubmissions.ClappiaAPIClient.handle_response ⟨200, some (JValue.jarr []), "[]"⟩
      = Except.error PyExc.attributeError ∧
    CreateApp.ClappiaCreateAppClient.handle_response ⟨200, some (JValue.jarr []), "[]"⟩
      = Except.error PyExc.attributeError ∧
    GetSubmissions.ClappiaAPIClient.handle_response
        ⟨200, some (JValue.jobj [("submissions", JValue.jnum 5)]), ""⟩
      = Except.error PyExc.typeError ∧
    GetDefinition.ClappiaAppDefinitionClient.handle_response
        ⟨200, some (JValue.jarr []), "[]"⟩
      = Except.error PyExc.attributeError ∧
    GetDefinition.ClappiaAppDefinitionClient.handle_response
        ⟨200, some (JValue.jobj [("pageIds", JValue.jnum 5)]), ""⟩
      = Except.error PyExc.typeError ∧
    GetDefinition.ClappiaAppDefinitionClient.handle_response
        ⟨200, some (JValue.jobj [("metadata", JValue.jstr "x")]), ""⟩
      = Except.error PyExc.attributeError :=
  ⟨rfl, rfl, rfl, rfl, rfl, rfl⟩

theorem hasKey_ite (c : Prop) [Decidable c] (l1 l2 : List (String × JValue)) (k : String) :
    hasKey (if c then l1 else l2) k = if c then hasKey l1 k else hasKey l2 k := by
  split <;> rfl

/-- Claim C3, amended: for the update operation the include-iff-supplied
contract holds exactly — the payload carries each optional attribute's key
precisely when that attribute is not None, and an explicit required=False
appears as the value false. For the add operation the contract does not
hold: attributes with library defaults (here: required) are always present
even when unset, while explicitly supplied falsy values (empty description
string, empty options list) are omitted by the builder's truthiness tests;
hidden alone follows the is-not-None rule. -/
theorem spec_C3 :
    (∀ (r : UpdateField.UpdateFieldRequest) (a : UpdateField.UpdateAttr),
      hasKey (UpdateField.ClappiaUpdateFieldClient.build_payload r) a.key = a.isSet r) ∧
    (∀ (r : UpdateField.UpdateFieldRequest) (b : Bool), r.required = some b →
      lookupKey (UpdateField.ClappiaUpdateFieldClient.build_payload r) "required"
        = some (JValue.jbool b)) ∧
    (∀ r : AddField.AddFieldRequest,
      hasKey (AddField.ClappiaAddFieldClient.build_payload r) "required" = true) ∧
    (∀ r : AddField.AddFieldRequest,
      hasKey (AddField.ClappiaAddFieldClient.build_payload r) "description"
        = !(r.description.getD "" == "")) ∧
    (∀ r : AddField.AddFieldRequest,
      hasKey (AddField.ClappiaAddFieldClient.build_payload r) "options"
        = !(r.options.getD []).isEmpty) ∧
    (∀ r : AddField.AddFieldRequest,
      hasKey (AddField.ClappiaAddFieldClient.build_payload r) "hidden" = r.hidden.isSome) := by
  refine ⟨?_, ?_, ?_, ?_, ?_, ?_⟩
  · intro r a
    cases a <;>
      simp [UpdateField.ClappiaUpdateFieldClient.build_payload, UpdateField.UpdateAttr.key,
        UpdateField.UpdateAttr.isSet, hasKey_append, hasKey_optJ, hasKey_cons, hasKey_nil]
  · intro r b h
    simp [UpdateField.ClappiaUpdateFieldClient.build_payload, lookupKey_append,
      lookupKey_optJ, lookupKey_cons, h]
  · intro r
    simp [AddField.ClappiaAddFieldClient.build_payload, hasKey_append, hasKey_optJ,
      hasKey_cons, hasKey_nil, hasKey_ite, hasKey_optTruthyStr, hasKey_optTruthyList,
      hasKey_optTruthyInt]
  · intro r
    simp [AddField.ClappiaAddFieldClient.build_payload, hasKey_append, hasKey_optJ,
      hasKey_cons, hasKey_nil, hasKey_ite, hasKey_optTruthyStr, hasKey_optTruthyList,
      hasKey_optTruthyInt]
  · intro r
    simp [AddField.ClappiaAddFieldClient.build_payload, hasKey_append, hasKey_optJ,
      hasKey_cons, hasKey_nil, hasKey_ite, hasKey_optTruthyStr, hasKey_optTruthyList,
      hasKey_optTruthyInt]
  · intro r
    simp [AddField.ClappiaAddFieldClient.build_payload, hasKey_append, hasKey_optJ,
      hasKey_cons, hasKey_nil, hasKey_ite, hasKey_optTruthyStr, hasKey_optTruthyList,
      hasKey_optTruthyInt]

/-- Witness for C3 at a concrete request: an explicit `required=False`
supplied to the update operation is serialized as the value false. -/
theorem spec_C3_witness :
    lookupKey (UpdateField.ClappiaUpdateFieldClient.build_payload
      UpdateField.sampleRequiredFalse) "required" = some (JValue.jbool false) :=
  spec_C3.2.1 UpdateField.sampleRequiredFalse false rfl

/-- Counterexample to claim C3 as stated: for the add-field operation
(a field-mutation operation) on a fully validated request, an explicitly
supplied empty description is omitted from the payload, and the unset
`required` attribute is nonetheless present — both directions of the
claimed include-iff-supplied equivalence fail. -/
theorem spec_C3_cx :
    AddField.sampleText.description = some "" ∧
    (AddField.ClappiaAddFieldValidator.validate_field_specific_options
      AddField.sampleText.field_type AddField.sampleText.options
      AddField.sampleText.formula) = (true, "") ∧
    (AddField.ClappiaAddFieldValidator.validate_app_id AddField.sampleText.app_id).1 = true ∧
    (AddField.ClappiaAddFieldValidator.validate_email
      AddField.sampleText.requesting_user_email_address).1 = true ∧
    hasKey (AddField.ClappiaAddFieldClient.build_payload AddField.sampleText)
      "description" = false ∧
    hasKey (AddField.ClappiaAddFieldClient.build_payload AddField.sampleText)
      "required" = true := by
  refine ⟨rfl, by decide, by decide, by decide, by decide, by decide⟩

/-- Claim C4, amended: building an update payload and re-extracting the keys
of the supplied attributes returns every boolean, integer and list value
unchanged, and every string value with surrounding whitespace stripped
(except `validation`, `style` and `image_quality`, which pass through
verbatim); hence the extraction reproduces the original values exactly
whenever every supplied string is free of surrounding whitespace. -/
theorem spec_C4 :
    (∀ (r : UpdateField.UpdateFieldRequest) (a : UpdateField.UpdateAttr),
      lookupKey (UpdateField.ClappiaUpdateFieldClient.build_payload r) a.key
        = a.sentValue r) ∧
    (∀ r : UpdateField.UpdateFieldRequest, r.stringsPreStripped →
      ∀ a : UpdateField.UpdateAttr, a.sentValue r = a.rawValue r) := by
  constructor
  · intro r a
    cases a <;>
      simp [UpdateField.ClappiaUpdateFieldClient.build_payload,
        UpdateField.UpdateAttr.key, UpdateField.UpdateAttr.sentValue,
        lookupKey_append, lookupKey_optJ, lookupKey_cons]
  · intro r h a
    obtain ⟨h1, h2, h3, h4, h5, h6, h7, h8⟩ := h
    cases a <;>
      simp only [UpdateField.UpdateAttr.sentValue, UpdateField.UpdateAttr.rawValue] <;>
      try rfl
    · cases hl : r.label with
      | none => simp
      | some s => rw [hl] at h1; simp at h1; simp [h1]
    · cases hl : r.description with
      | none => simp
      | some s => rw [hl] at h2; simp at h2; simp [h2]
    · cases hl : r.display_condition with
      | none => simp
      | some s => rw [hl] at h3; simp at h3; simp [h3]
    · cases hl : r.editability_condition with
      | none => simp
      | some s => rw [hl] at h4; simp at h4; simp [h4]
    · cases hl : r.default_value with
      | none => simp
      | some s => rw [hl] at h5; simp at h5; simp [h5]
    · cases hl : r.image_text with
      | none => simp
      | some s => rw [hl] at h6; simp at h6; simp [h6]
    · cases hl : r.file_name_pref with
      | none => simp
      | some s => rw [hl] at h7; simp at h7; simp [h7]
    · cases hl : r.formula with
      | none => simp
      | some s => rw [hl] at h8; simp at h8; simp [h8]

/-- Witness for C4 at a concrete request with whitespace-free strings: the
sent value of the supplied label coincides with the raw supplied value. -/
theorem spec_C4_witness :
    UpdateField.UpdateAttr.sentValue UpdateField.UpdateAttr.label
        UpdateField.sampleLabelClean
      = UpdateField.UpdateAttr.rawValue UpdateField.UpdateAttr.label
        UpdateField.sampleLabelClean :=
  spec_C4.2 UpdateField.sampleLabelClean
    ⟨rfl, rfl, rfl, rfl, rfl, rfl, rfl, rfl⟩ UpdateField.UpdateAttr.label

/-- Counterexample to claim C4 as stated: the supplied label " X " is
re-extracted as "X" — the string value is not reproduced unchanged. -/
theorem spec_C4_cx :
    UpdateField.sampleLabelPadded.label = some " X " ∧
    lookupKey (UpdateField.ClappiaUpdateFieldClient.build_payload
      UpdateField.sampleLabelPadded) "label" = some (JValue.jstr "X") ∧
    (" X " : String) ≠ "X" := by
  refine ⟨rfl, rfl, by decide⟩

/-- Claim C5, amended: in the add-field payload the style key is present iff
the field type is singleSelector or multiSelector — dropDown, although in
the selector family that requires options, is absent from the builder's
style test — and the column-count key additionally requires a nonzero
supplied number_of_cols; the max-count and image-quality keys are present
iff the field type is "file", while the allowed-file-types, overlay-text and
file-name keys also require the corresponding attribute to be supplied and
truthy; the formula key is present iff the field type is the calculation
type, for every request passing field-specific validation. -/
theorem spec_C5 (r : AddField.AddFieldRequest) :
    (hasKey (AddField.ClappiaAddFieldClient.build_payload r) "style"
      = (r.field_type == "singleSelector" || r.field_type == "multiSelector")) ∧
    (hasKey (AddField.ClappiaAddFieldClient.build_payload r) "numberOfCols"
      = ((r.field_type == "singleSelector" || r.field_type == "multiSelector")
          && !(r.number_of_cols.getD 0 == 0))) ∧
    (hasKey (AddField.ClappiaAddFieldClient.build_payload r) "maxFileAllowed"
      = (r.field_type == "file")) ∧
    (hasKey (AddField.ClappiaAddFieldClient.build_payload r) "imageQuality"
      = (r.field_type == "file")) ∧
    (hasKey (AddField.ClappiaAddFieldClient.build_payload r) "allowedFileTypes"
      = ((r.field_type == "file") && !(r.allowed_file_types.getD []).isEmpty)) ∧
    (hasKey (AddField.ClappiaAddFieldClient.build_payload r) "imageText"
      = ((r.field_type == "file") && !(r.image_text.getD "" == ""))) ∧
    (hasKey (AddField.ClappiaAddFieldClient.build_payload r) "fileNamePrefix"
      = ((r.field_type == "file") && !(r.file_name_pref.getD "" == ""))) ∧
    ((AddField.ClappiaAddFieldValidator.validate_field_specific_options
        r.field_type r.options r.formula).1 = true →
      hasKey (AddField.ClappiaAddFieldClient.build_payload r) "formula"
        = (r.field_type == "calculationsAndLogic")) := by
  refine ⟨?_, ?_, ?_, ?_, ?_, ?_, ?_, ?_⟩
  · by_cases h1 : (r.field_type == "singleSelector"
        || r.field_type == "multiSelector") = true <;>
      simp [AddField.ClappiaAddFieldClient.build_payload, hasKey_append, hasKey_optJ,
        hasKey_cons, hasKey_nil, hasKey_ite, hasKey_optTruthyStr, hasKey_optTruthyList,
        hasKey_optTruthyInt, h1]
  · by_cases h1 : (r.field_type == "singleSelector"
        || r.field_type == "multiSelector") = true <;>
      simp [AddField.ClappiaAddFieldClient.build_payload, hasKey_append, hasKey_optJ,
        hasKey_cons, hasKey_nil, hasKey_ite, hasKey_optTruthyStr, hasKey_optTruthyList,
        hasKey_optTruthyInt, h1]
  · by_cases h2 : (r.field_type == "file") = true <;>
      simp [AddField.ClappiaAddFieldClient.build_payload, hasKey_append, hasKey_optJ,
        hasKey_cons, hasKey_nil, hasKey_ite, hasKey_optTruthyStr, hasKey_optTruthyList,
        hasKey_optTruthyInt, h2]
  · by_cases h2 : (r.field_type == "file") = true <;>
      simp [AddField.ClappiaAddFieldClient.build_payload, hasKey_append, hasKey_optJ,
        hasKey_cons, hasKey_nil, hasKey_ite, hasKey_optTruthyStr, hasKey_optTruthyList,
        hasKey_optTruthyInt, h2]
  · by_cases h2 : (r.field_type == "file") = true <;>
      simp [AddField.ClappiaAddFieldClient.build_payload, hasKey_append, hasKey_optJ,
        hasKey_cons, hasKey_nil, hasKey_ite, hasKey_optTruthyStr, hasKey_optTruthyList,
        hasKey_optTruthyInt, h2]
  · by_cases h2 : (r.field_type == "file") = true <;>
      simp [AddField.ClappiaAddFieldClient.build_payload, hasKey_append, hasKey_optJ,
        hasKey_cons, hasKey_nil, hasKey_ite, hasKey_optTruthyStr, hasKey_optTruthyList,
        hasKey_optTruthyInt, h2]
  · by_cases h2 : (r.field_type == "file") = true <;>
      simp [AddField.ClappiaAddFieldClient.build_payload, hasKey_append, hasKey_optJ,
        hasKey_cons, hasKey_nil, hasKey_ite, hasKey_optTruthyStr, hasKey_optTruthyList,
        hasKey_optTruthyInt, h2]
  · intro hv
    by_cases h3 : (r.field_type == "calculationsAndLogic") = true
    · have hft : r.field_type = "calculationsAndLogic" := eq_of_beq h3
      unfold AddField.ClappiaAddFieldValidator.validate_field_specific_options at hv
      rw [hft] at hv
      simp at hv
      by_cases hc : (r.formula.getD "" = "" ∨ pyStrip (r.formula.getD "") = "")
      · simp [hc] at hv
      · push_neg at hc
        simp [AddField.ClappiaAddFieldClient.build_payload, hasKey_append, hasKey_optJ,
          hasKey_cons, hasKey_nil, hasKey_ite, hasKey_optTruthyStr, hasKey_optTruthyList,
          hasKey_optTruthyInt, hft, hc.1]
    · simp [AddField.ClappiaAddFieldClient.build_payload, hasKey_append, hasKey_optJ,
        hasKey_cons, hasKey_nil, hasKey_ite, hasKey_optTruthyStr, hasKey_optTruthyList,
        hasKey_optTruthyInt, h3]

/-- Witness for C5 at a concrete validated calculation request: the formula
key is present exactly because the field type is the calculation type. -/
theorem spec_C5_witness :
    hasKey (AddField.ClappiaAddFieldClient.build_payload AddField.sampleCalc) "formula"
      = (AddField.sampleCalc.field_type == "calculationsAndLogic") :=
  (spec_C5 AddField.sampleCalc).2.2.2.2.2.2.2 (by decide)

/-- Counterexample to claim C5 as stated: a fully validated dropDown request
— dropDown being in the selector family whose members require options —
produces a payload with no style key. -/
theorem spec_C5_cx :
    AddField.sampleDropDown.field_type = "dropDown" ∧
    (AddField.ClappiaAddFieldValidator.validate_field_specific_options
      AddField.sampleDropDown.field_type AddField.sampleDropDown.options
      AddField.sampleDropDown.formula) = (true, "") ∧
    hasKey (AddField.ClappiaAddFieldClient.build_payload AddField.sampleDropDown)
      "style" = false ∧
    hasKey (AddField.ClappiaAddFieldClient.build_payload AddField.sampleDropDown)
      "numberOfCols" = false := by
  refine ⟨rfl, by decide, by decide, by decide⟩

theorem validateFields_true_ok (name : String) (fields : List CreateApp.Field) :
    ∀ j : Nat, (CreateApp.validateFields name fields j).1 = true →
    ∀ f ∈ fields,
      CreateApp.VALID_FIELD_TYPES.contains f.fieldType = true ∧
      ((f.fieldType == "singleSelector" || f.fieldType == "multiSelector" ||
        f.fieldType == "dropDown") = true → (f.options.getD []).isEmpty = false) := by
  induction fields with
  | nil => intro j _ f hf; simp at hf
  | cons g rest ih =>
    intro j h f hf
    rw [CreateApp.validateFields] at h
    by_cases c1 : CreateApp.VALID_FIELD_TYPES.contains g.fieldType = true
    case neg =>
      have c1f : CreateApp.VALID_FIELD_TYPES.contains g.fieldType = false := by
        simpa using c1
      rw [if_pos (by rw [c1f]; rfl)] at h
      simp at h
    case pos =>
      rw [if_neg (by rw [c1]; simp)] at h
      by_cases c2 : (pyStrip g.label == "") = true
      · rw [if_pos c2] at h; simp at h
      · rw [if_neg c2] at h
        by_cases c3 : ((g.fieldType == "singleSelector" || g.fieldType == "multiSelector" ||
            g.fieldType == "dropDown") && (g.options.getD []).isEmpty) = true
        · rw [if_pos c3] at h; simp at h
        · rw [if_neg c3] at h
          rcases List.mem_cons.mp hf with rfl | hf2
          · refine ⟨c1, fun hfam => ?_⟩
            cases he : (f.options.getD []).isEmpty
            · rfl
            · exact absurd (by rw [hfam, he]; rfl) c3
          · exact ih (j + 1) h f hf2

theorem validateSectionsAux_true_ok (sections : List CreateApp.Section) :
    ∀ i : Nat, (CreateApp.validateSectionsAux sections i).1 = true →
    ∀ s ∈ sections, ∀ f ∈ s.fields,
      CreateApp.VALID_FIELD_TYPES.contains f.fieldType = true ∧
      ((f.fieldType == "singleSelector" || f.fieldType == "multiSelector" ||
        f.fieldType == "dropDown") = true → (f.options.getD []).isEmpty = false) := by
  induction sections with
  | nil => intro i _ s hs; simp at hs
  | cons sec rest ih =>
    intro i h s hs
    rw [CreateApp.validateSectionsAux] at h
    by_cases c1 : (pyStrip sec.sectionName == "") = true
    · rw [if_pos c1] at h; simp at h
    · rw [if_neg c1] at h
      by_cases c2 : sec.fields.isEmpty = true
      · rw [if_pos c2] at h; simp at h
      · rw [if_neg c2] at h
        rcases hvf : CreateApp.validateFields sec.sectionName sec.fields 0 with ⟨b, m⟩
        rw [hvf] at h
        cases b
        · simp at h
        · rcases List.mem_cons.mp hs with rfl | hs2
          · exact validateFields_true_ok s.sectionName s.fields 0 (by rw [hvf])
          · exact ih (i + 1) h s hs2

/-- Claim C6: a selector-family field definition with an absent or empty
options list is rejected by the add-field validator with the message naming
options, and by the create-app section validator wherever it occurs in the
submitted sections, regardless of every other attribute; a calculation-type
field whose formula is absent or blank after stripping is rejected by the
add-field validator, and a calculation-type field is always rejected by the
create-app validator (the type is outside its vocabulary). -/
theorem spec_C6 :
    (∀ (ft : String) (o : Option (List String)) (fm : Option String),
      (ft = "singleSelector" ∨ ft = "multiSelector" ∨ ft = "dropDown") →
      (o = none ∨ o = some []) →
      AddField.ClappiaAddFieldValidator.validate_field_specific_options ft o fm
        = (false, "Field type '" ++ ft ++ "' requires non-empty options list")) ∧
    (∀ (o : Option (List String)) (fm : Option String),
      pyStrip (fm.getD "") = "" →
      (AddField.ClappiaAddFieldValidator.validate_field_specific_options
        "calculationsAndLogic" o fm).1 = false) ∧
    (∀ (sections : List CreateApp.Section) (s : CreateApp.Section) (f : CreateApp.Field),
      s ∈ sections → f ∈ s.fields →
      (f.fieldType == "singleSelector" || f.fieldType == "multiSelector" ||
        f.fieldType == "dropDown") = true →
      (f.options.getD []).isEmpty = true →
      (CreateApp.ClappiaCreateAppValidator.validate_sections sections).1 = false) ∧
    (∀ (sections : List CreateApp.Section) (s : CreateApp.Section) (f : CreateApp.Field),
      s ∈ sections → f ∈ s.fields → f.fieldType = "calculationsAndLogic" →
      (CreateApp.ClappiaCreateAppValidator.validate_sections sections).1 = false) := by
  refine ⟨?_, ?_, ?_, ?_⟩
  · intro ft o fm h1 h2
    unfold AddField.ClappiaAddFieldValidator.validate_field_specific_options
    have hfam : (ft == "singleSelector" || ft == "multiSelector"
        || ft == "dropDown") = true := by
      rcases h1 with rfl | rfl | rfl <;> rfl
    have hemp : (o.getD []).isEmpty = true := by
      rcases h2 with rfl | rfl <;> rfl
    rw [if_pos (by rw [hfam, hemp]; rfl)]
  · intro o fm h
    unfold AddField.ClappiaAddFieldValidator.validate_field_specific_options
    rw [if_neg (by simp), if_pos (by simp [h])]
  · intro sections s f hs hf hfam hemp
    unfold CreateApp.ClappiaCreateAppValidator.validate_sections
    by_cases he : sections.isEmpty = true
    · rw [if_pos he]
    · rw [if_neg he]
      cases hb : (CreateApp.validateSectionsAux sections 0).1
      · rfl
      · exfalso
        have hok := validateSectionsAux_true_ok sections 0 hb s hs f hf
        rw [hok.2 hfam] at hemp
        exact Bool.false_ne_true hemp
  · intro sections s f hs hf hft
    unfold CreateApp.ClappiaCreateAppValidator.validate_sections
    by_cases he : sections.isEmpty = true
    · rw [if_pos he]
    · rw [if_neg he]
      cases hb : (CreateApp.validateSectionsAux sections 0).1
      · rfl
      · exfalso
        have hok := validateSectionsAux_true_ok sections 0 hb s hs f hf
        rw [hft] at hok
        exact absurd hok.1 (by decide)

/-- Witness for C6 at a concrete input: a dropDown field with an empty
options list, inside an otherwise fully valid section, is rejected by both
the add-field validator (with the options-naming message) and the
create-app validator. -/
theorem spec_C6_witness :
    AddField.ClappiaAddFieldValidator.validate_field_specific_options
        "dropDown" (some []) none
      = (false, "Field type '" ++ "dropDown" ++ "' requires non-empty options list") ∧
    (CreateApp.ClappiaCreateAppValidator.validate_sections
      [{ sectionName := "Info",
         fields := [{ fieldType := "singleLineText", label := "Name" },
                    { fieldType := "dropDown", label := "Dept", options := some [] }] }]).1
      = false :=
  ⟨spec_C6.1 "dropDown" (some []) none (Or.inr (Or.inr rfl)) (Or.inr rfl),
   spec_C6.2.2.1
     [{ sectionName := "Info",
        fields := [{ fieldType := "singleLineText", label := "Name" },
                   { fieldType := "dropDown", label := "Dept", options := some [] }] }]
     { sectionName := "Info",
       fields := [{ fieldType := "singleLineText", label := "Name" },
                  { fieldType := "dropDown", label := "Dept", options := some [] }] }
     { fieldType := "dropDown", label := "Dept", options := some [] }
     (by simp) (by simp) rfl rfl⟩

/-- Claim C9, amended: the submissions-listing operation accepts
page_size=1000 (the request is issued) and rejects 1001, 0 and -1 with a
validation-error string before any network attempt; the aggregation
operation, by contrast, performs no page-size validation at all — any
page_size, 1001 included, is forwarded unchanged into the outbound
payload. -/
theorem spec_C9 :
    (∀ (env : GetSubmissions.Env) (app email : String),
      pyStrip app ≠ "" → pyStrip email ≠ "" → emailDollarMatch email = true →
      env.api_key.getD "" ≠ "" → env.workplace_id.getD "" ≠ "" →
      (GetSubmissions.ClappiaAPIClient.get_app_submissions env app email 1000 none
        = GetSubmissions.PipelineResult.sendRequest
            (GetSubmissions.ClappiaAPIClient.submissions_payload env app email 1000 none)) ∧
      (GetSubmissions.ClappiaAPIClient.get_app_submissions env app email 1001 none
        = GetSubmissions.PipelineResult.earlyReturn "Error: page_size cannot exceed 1000") ∧
      (GetSubmissions.ClappiaAPIClient.get_app_submissions env app email 0 none
        = GetSubmissions.PipelineResult.earlyReturn
            "Error: page_size must be a positive integer") ∧
      (GetSubmissions.ClappiaAPIClient.get_app_submissions env app email (-1) none
        = GetSubmissions.PipelineResult.earlyReturn
            "Error: page_size must be a positive integer")) ∧
    (∀ (env : GetSubmissionsAggregation.Env) (w a email : String)
        (dims : List JValue) (ps : Int),
      pyStrip w ≠ "" → pyStrip a ≠ "" → dims ≠ [] →
      env.api_key.getD "" ≠ "" → env.base_url.getD "" ≠ "" →
      GetSubmissionsAggregation.ClappiaAggregationAPIClient.get_app_submissions_aggregation
          env w a dims [] [] email true ps none
        = GetSubmissions.PipelineResult.sendRequest
            (GetSubmissionsAggregation.ClappiaAggregationAPIClient.aggregation_payload
              w a dims [] [] email true ps none)) := by
  constructor
  · intro env app email happ hemail hmatch hkey hwp
    refine ⟨?_, ?_, ?_, ?_⟩ <;>
      unfold GetSubmissions.ClappiaAPIClient.get_app_submissions <;>
      rw [if_neg (by simpa using happ), if_neg (by simpa using hemail),
        if_neg (by simp [GetSubmissions.ClappiaValidator.validate_email, hmatch])]
    · rw [if_neg (by decide), if_neg (by decide)]
      show (if env.api_key.getD "" == "" then _ else _) = _
      rw [if_neg (by simpa using hkey), if_neg (by simpa using hwp)]
    · rw [if_neg (by decide), if_pos (by decide)]
    · rw [if_pos (by decide)]
    · rw [if_pos (by decide)]
  · intro env w a email dims ps hw ha hd hkey hurl
    unfold GetSubmissionsAggregation.ClappiaAggregationAPIClient.get_app_submissions_aggregation
    rw [if_neg (by simpa using hw), if_neg (by simpa using ha),
      if_neg (by simp [hd]), if_neg (by simpa using hkey), if_neg (by simpa using hurl)]

/-- Witness for C9 at concrete inputs: the listing operation rejects
page_size=1001 early, and the aggregation operation forwards page_size=1001
into an issued request. -/
theorem spec_C9_witness :
    (GetSubmissions.ClappiaAPIClient.get_app_submissions
        { api_key := some "k", workplace_id := some "WRK1" } "APP1" "a@b.co" 1001 none
      = GetSubmissions.PipelineResult.earlyReturn "Error: page_size cannot exceed 1000") ∧
    (GetSubmissionsAggregation.ClappiaAggregationAPIClient.get_app_submissions_aggregation
        { api_key := some "k", base_url := some "u" } "WRK1" "APP1"
        [JValue.jobj [("fieldName", JValue.jstr "status")]] [] [] "dev@clappia.com"
        true 1001 none
      = GetSubmissions.PipelineResult.sendRequest
          (GetSubmissionsAggregation.ClappiaAggregationAPIClient.aggregation_payload
            "WRK1" "APP1" [JValue.jobj [("fieldName", JValue.jstr "status")]] [] []
            "dev@clappia.com" true 1001 none)) :=
  ⟨(spec_C9.1 { api_key := some "k", workplace_id := some "WRK1" } "APP1" "a@b.co"
      (by decide) (by decide) (by decide) (by decide) (by decide)).2.1,
   spec_C9.2 { api_key := some "k", base_url := some "u" } "WRK1" "APP1" "dev@clappia.com"
      [JValue.jobj [("fieldName", JValue.jstr "status")]] 1001
      (by decide) (by decide) (by simp) (by decide) (by decide)⟩

/-- Counterexample to claim C9 as stated: the aggregation operation — an
operation taking a page_size parameter — given page_size=1001 with otherwise
valid inputs and configured credentials does not return a validation-error
string; it issues the HTTP request, with 1001 serialized under "pageSize" in
the outbound payload. -/
theorem spec_C9_cx :
    GetSubmissionsAggregation.ClappiaAggregationAPIClient.get_app_submissions_aggregation
        { api_key := some "k", base_url := some "u" } "WRK1" "APP1"
        [JValue.jobj [("fieldName", JValue.jstr "status"), ("label", JValue.jstr "Status"),
          ("dataType", JValue.jstr "text"), ("dimensionType", JValue.jstr "CUSTOM")]]
        [] [] "dev@clappia.com" true 1001 none
      = GetSubmissions.PipelineResult.sendRequest
          (GetSubmissionsAggregation.ClappiaAggregationAPIClient.aggregation_payload
            "WRK1" "APP1"
            [JValue.jobj [("fieldName", JValue.jstr "status"), ("label", JValue.jstr "Status"),
              ("dataType", JValue.jstr "text"), ("dimensionType", JValue.jstr "CUSTOM")]]
            [] [] "dev@clappia.com" true 1001 none) ∧
    lookupKey
        (GetSubmissionsAggregation.ClappiaAggregationAPIClient.aggregation_payload
          "WRK1" "APP1"
          [JValue.jobj [("fieldName", JValue.jstr "status"), ("label", JValue.jstr "Status"),
            ("dataType", JValue.jstr "text"), ("dimensionType", JValue.jstr "CUSTOM")]]
          [] [] "dev@clappia.com" true 1001 none) "pageSize"
      = some (JValue.jnum 1001) :=
  ⟨rfl, rfl⟩

/-- Claim C10: the submissions-listing operation checks app_id only for
non-blankness — for every app_id whose stripped form is non-empty (lowercase
or punctuated identifiers included), given a valid email, an in-range page
size and configured credentials, the operation reaches the network stage and
serializes the stripped app_id into the outbound payload. -/
theorem spec_C10 (env : GetSubmissions.Env) (app email : String) (ps : Int) :
    pyStrip app ≠ "" → pyStrip email ≠ "" → emailDollarMatch email = true →
    0 < ps → ps ≤ 1000 →
    env.api_key.getD "" ≠ "" → env.workplace_id.getD "" ≠ "" →
    GetSubmissions.ClappiaAPIClient.get_app_submissions env app email ps none
      = GetSubmissions.PipelineResult.sendRequest
          (GetSubmissions.ClappiaAPIClient.submissions_payload env app email ps none) ∧
    lookupKey (GetSubmissions.ClappiaAPIClient.submissions_payload env app email ps none)
      "appId" = some (JValue.jstr (pyStrip app)) := by
  intro happ hemail hmatch hpos hle hkey hwp
  constructor
  · unfold GetSubmissions.ClappiaAPIClient.get_app_submissions
    rw [if_neg (by simpa using happ), if_neg (by simpa using hemail),
      if_neg (by simp [GetSubmissions.ClappiaValidator.validate_email, hmatch]),
      if_neg (by omega), if_neg (by omega)]
    show (if env.api_key.getD "" == "" then _ else _) = _
    rw [if_neg (by simpa using hkey), if_neg (by simpa using hwp)]
  · simp [GetSubmissions.ClappiaAPIClient.submissions_payload, lookupKey_append,
      lookupKey_cons]

/-- Witness for C10 at a concrete lowercase, punctuated app id: the listing
operation proceeds to the network stage with it. -/
theorem spec_C10_witness :
    GetSubmissions.ClappiaAPIClient.get_app_submissions
        { api_key := some "k", workplace_id := some "WRK1" } "my-app!" "a@b.co" 10 none
      = GetSubmissions.PipelineResult.sendRequest
          (GetSubmissions.ClappiaAPIClient.submissions_payload
            { api_key := some "k", workplace_id := some "WRK1" } "my-app!" "a@b.co" 10 none) ∧
    lookupKey (GetSubmissions.ClappiaAPIClient.submissions_payload
        { api_key := some "k", workplace_id := some "WRK1" } "my-app!" "a@b.co" 10 none)
      "appId" = some (JValue.jstr (pyStrip "my-app!")) :=
  spec_C10 { api_key := some "k", workplace_id := some "WRK1" } "my-app!" "a@b.co" 10
    (by decide) (by decide) (by decide) (by decide) (by decide) (by decide) (by decide)
